import Mathlib

/-!
Verification development for the MultiTanks game core.

This file gives a shallow embedding of the simulation core of the
MultiTanks repository (src/js/game.js, the powerups module, and the mode
helpers) and proves properties about it.

Modelling conventions:
* JavaScript numbers are modelled as rationals (exact arithmetic,
  idealising IEEE doubles as the spec does).
* The host math library (Math.cos, Math.sin, Math.atan2, Math.PI,
  Math.sqrt) is modelled by an abstract structure of rational functions,
  a parameter of every definition that uses it.  The game logic never
  relies on trigonometric identities, so this is exact.
* Array.prototype.forEach loops that splice the array they iterate are
  modelled index-accurately: the loop counter still advances by one after
  a splice, so the element shifted into the removed slot is skipped, and
  the captured element variable keeps referring to the original object.
* JS Map playerStats is an association list with unique keys; a get on a
  missing key is None and the corresponding update is a no-op, matching
  the if-guards around every stats access in the source.
-/

namespace MultiTanks

/-- Teams for TDM mode ('red' / 'blue' strings in the source). -/
inductive Team
  | red
  | blue
deriving DecidableEq

/-- GAME_MODES from src/js/modes/campaignMode.js. -/
inductive Mode
  | ffa
  | tdm
  | campaign
deriving DecidableEq

/-- GAME_STATES values used by the engine. -/
inductive GState
  | menu
  | playing
  | gameOver
deriving DecidableEq

/-- Powerup type keys of GAME_CONFIG.POWERUP_TYPES. -/
inductive PowerupType
  | HEALTH
  | INVINCIBILITY
  | SPEED
  | RAPID_FIRE
  | SPREAD_SHOT
  | BOUNCING_BULLETS
deriving DecidableEq

/-- Control notes tracked in game.activeControls
(updatePlayerTank reads A_SHARP/A/B/C for movement, C_SHARP/D_SHARP for
aiming and D for shooting). -/
inductive Control
  | A
  | A_SHARP
  | B
  | C
  | C_SHARP
  | D
  | D_SHARP
deriving DecidableEq

/-- The host float math library: Math.cos, Math.sin, Math.atan2, Math.PI
and Math.sqrt(2) (the only square root the player movement code takes),
abstracted as rational-valued parameters. -/
structure Trig where
  tcos : ℚ → ℚ
  tsin : ℚ → ℚ
  atan2 : ℚ → ℚ → ℚ
  piQ : ℚ
  sqrt2 : ℚ

/-- The GAME_CONFIG constants consumed by the embedded code
(src/js/modes/campaignMode.js).  MAP_WIDTH/MAP_HEIGHT are
window.innerWidth/innerHeight at runtime, hence fields here. -/
structure Config where
  mapWidth : ℚ
  mapHeight : ℚ
  tankSize : ℚ
  tankSpeed : ℚ
  tankHealth : ℚ
  turretLength : ℚ
  turretRotationSpeed : ℚ
  shootCooldown : ℚ
  bulletSpeed : ℚ
  bulletSize : ℚ
  bulletDamage : ℚ
  powerupDuration : ℚ
  powerupSpawnIntervalMin : ℚ
  powerupSpawnIntervalMax : ℚ
  powerupSize : ℚ
  powerupHealthBoost : ℚ
  powerupSpeedMultiplier : ℚ
  powerupFireRateMultiplier : ℚ
  powerupSpreadAngle : ℚ
  powerupBounceBounces : ℕ
  spawnDistanceFromEdge : ℚ
  slideFactor : ℚ
deriving DecidableEq

/-- Concrete GAME_CONFIG values from src/js/modes/campaignMode.js
(map dimensions instantiated to a 1280x720 window; slideFactor belongs to
the spec-modelled sliding resolver, see moveTankWithSliding). -/
def gameConfig : Config where
  mapWidth := 1280
  mapHeight := 720
  tankSize := 30
  tankSpeed := 2
  tankHealth := 30
  turretLength := 40
  turretRotationSpeed := 1/25
  shootCooldown := 700
  bulletSpeed := 6
  bulletSize := 4
  bulletDamage := 1
  powerupDuration := 15000
  powerupSpawnIntervalMin := 1000
  powerupSpawnIntervalMax := 3000
  powerupSize := 15
  powerupHealthBoost := 10
  powerupSpeedMultiplier := 3/2
  powerupFireRateMultiplier := 2
  powerupSpreadAngle := 1/5
  powerupBounceBounces := 3
  spawnDistanceFromEdge := 50
  slideFactor := 1/2

/-- The five per-tank powerup stack arrays (remaining durations in ms). -/
structure PowerupStacks where
  invincibility : List ℚ
  speed : List ℚ
  rapidFire : List ℚ
  spreadShot : List ℚ
  bouncingBullets : List ℚ
deriving DecidableEq

/-- Tank record, per createTank in src/js/game.js.  The AI scratch fields
(aiTarget, aiOrbitDirection, ...) are consumed only by the AI controller,
which this development models as an opaque step parameter, so they are
not reproduced here. -/
structure Tank where
  id : ℕ
  name : String
  x : ℚ
  y : ℚ
  angle : ℚ
  turretAngle : ℚ
  health : ℚ
  maxHealth : ℚ
  color : String
  isAI : Bool
  team : Option Team
  lastShot : ℚ
  size : ℚ
  speed : ℚ
  turretLength : ℚ
  turretRotationSpeed : ℚ
  isAlive : Bool
  shotsFired : ℕ
  shotsHit : ℕ
  kills : ℕ
  deaths : ℕ
  timeAlive : ℚ
  deathTime : ℚ
  killedBy : Option String
  powerups : PowerupStacks
deriving DecidableEq

/-- Bullet record, per shootBullet in src/js/game.js.  Note the source
stores no spawn timestamp on bullets. -/
structure Bullet where
  x : ℚ
  y : ℚ
  angle : ℚ
  speed : ℚ
  size : ℚ
  ownerId : ℕ
  color : String
  bounces : ℕ
deriving DecidableEq

/-- Powerup entity, per GamePowerups.spawn (field named type in JS). -/
structure Powerup where
  id : ℚ
  x : ℚ
  y : ℚ
  ptype : PowerupType
  size : ℚ
  alive : Bool
  rotation : ℚ
deriving DecidableEq

/-- Obstacle: rock (circle, fields x/y/radius) or rectangle
(fields x/y/width/height), per generateRandomObstacle. -/
inductive Obstacle
  | rock (x y radius : ℚ) (color : String)
  | rect (x y width height : ℚ) (color : String)
deriving DecidableEq

/-- Per-participant statistics record stored in game.playerStats. -/
structure PStats where
  name : String
  isAI : Bool
  team : Option Team
  shotsFired : ℕ
  shotsHit : ℕ
  kills : ℕ
  deaths : ℕ
  timeAlive : ℚ
  deathTime : ℚ
  killedBy : Option String
  killsList : List String
  killedByList : List String
  powerupsCollected : ℕ
deriving DecidableEq

/-- The MultiTanksGame state owned by the simulation loop.  teams.red and
teams.blue hold references to tank objects in the source; since ids are
unique they are modelled as id lists resolved against tanks.
rngIdx is the position in the ambient Math.random stream. -/
structure GameState where
  tanks : List Tank
  bullets : List Bullet
  powerups : List Powerup
  obstacles : List Obstacle
  playerStats : List (ℕ × PStats)
  teamsRed : List ℕ
  teamsBlue : List ℕ
  gameMode : Mode
  isPaused : Bool
  gameState : GState
  gameStartTime : ℚ
  gameEndTime : ℚ
  powerupSpawnTimer : ℚ
  activeControls : List (ℕ × Control)
  numPlayers : ℕ
  rngIdx : ℕ
deriving DecidableEq

/-- The comparison Math.sqrt(dx^2 + dy^2) < r, squared exactly: for
r ≥ 0 the two sides are equivalent, and for r < 0 both are false. -/
def distLt (dx dy r : ℚ) : Bool :=
  decide (0 ≤ r) && decide (dx ^ 2 + dy ^ 2 < r ^ 2)

/-- playerStats.get(id) on the association-list model. -/
def statsGet (m : List (ℕ × PStats)) (k : ℕ) : Option PStats :=
  (m.find? (fun e => decide (e.1 = k))).map Prod.snd

/-- Field update of the stats entry for id k; a no-op when the key is
missing, matching the if (stats) guards in the source. -/
def statsUpd (m : List (ℕ × PStats)) (k : ℕ) (f : PStats → PStats) :
    List (ℕ × PStats) :=
  m.map fun e => if e.1 = k then (e.1, f e.2) else e

/-- this.tanks.find(t => t.id === ownerId). -/
def findTank (tanks : List Tank) (oid : ℕ) : Option Tank :=
  tanks.find? (fun t => decide (t.id = oid))

/-- GamePowerups.apply restricted to the tank mutation (the switch over
powerup types): HEALTH heals capped at maxHealth, every other type
pushes a fresh POWERUP_DURATION entry onto its stack array.
src/js/game.js applyPowerup performs the identical mutation. -/
def applyPowerupTank (cfg : Config) (ty : PowerupType) (t : Tank) : Tank :=
  match ty with
  | PowerupType.HEALTH =>
      { t with health := min t.maxHealth (t.health + cfg.powerupHealthBoost) }
  | PowerupType.INVINCIBILITY =>
      { t with powerups :=
          { t.powerups with invincibility :=
              t.powerups.invincibility ++ [cfg.powerupDuration] } }
  | PowerupType.SPEED =>
      { t with powerups :=
          { t.powerups with speed := t.powerups.speed ++ [cfg.powerupDuration] } }
  | PowerupType.RAPID_FIRE =>
      { t with powerups :=
          { t.powerups with rapidFire :=
              t.powerups.rapidFire ++ [cfg.powerupDuration] } }
  | PowerupType.SPREAD_SHOT =>
      { t with powerups :=
          { t.powerups with spreadShot :=
              t.powerups.spreadShot ++ [cfg.powerupDuration] } }
  | PowerupType.BOUNCING_BULLETS =>
      { t with powerups :=
          { t.powerups with bouncingBullets :=
              t.powerups.bouncingBullets ++ [cfg.powerupDuration] } }

/-- GamePowerups.apply on the game state: mutate the tank at index j and
bump its powerupsCollected statistic. -/
def powerupsApply (cfg : Config) (st : GameState) (j : ℕ) (ty : PowerupType) :
    GameState :=
  match st.tanks[j]? with
  | none => st
  | some t =>
      { st with
          tanks := st.tanks.set j (applyPowerupTank cfg ty t),
          playerStats := statsUpd st.playerStats t.id
            (fun s => { s with powerupsCollected := s.powerupsCollected + 1 }) }

/-- A bullet as pushed by shootBullet: spawned at the turret tip along
angle ang, bouncing iff the bouncingBullets stack is non-empty. -/
def mkBullet (cfg : Config) (T : Trig) (t : Tank) (ang : ℚ) : Bullet where
  x := t.x + T.tcos ang * t.turretLength
  y := t.y + T.tsin ang * t.turretLength
  angle := ang
  speed := cfg.bulletSpeed
  size := cfg.bulletSize
  ownerId := t.id
  color := t.color
  bounces := if 0 < t.powerups.bouncingBullets.length then cfg.powerupBounceBounces else 0

/-- The bullet list created by one shootBullet call: with spreadShot
stack count n > 0, 3^n bullets fanned from
baseAngle - totalSpread/2 in steps of totalSpread/(count-1) where
totalSpread = (count-1) * POWERUP_SPREAD_ANGLE; otherwise one bullet
along the turret angle. -/
def spreadBullets (cfg : Config) (T : Trig) (t : Tank) : List Bullet :=
  let n := t.powerups.spreadShot.length
  if 0 < n then
    let count : ℕ := 3 ^ n
    if count = 1 then
      [mkBullet cfg T t t.turretAngle]
    else
      let totalSpread := ((count : ℚ) - 1) * cfg.powerupSpreadAngle
      let startAngle := t.turretAngle - totalSpread / 2
      (List.range count).map fun i : ℕ =>
        mkBullet cfg T t (startAngle + ((i : ℚ) * totalSpread) / ((count : ℚ) - 1))
  else
    [mkBullet cfg T t t.turretAngle]

/-- MultiTanksGame.shootBullet for the tank at index j: push the bullets,
then increment the shooter's shotsFired and its stats entry. -/
def shootBullet (cfg : Config) (T : Trig) (st : GameState) (j : ℕ) : GameState :=
  match st.tanks[j]? with
  | none => st
  | some t =>
      { st with
          bullets := st.bullets ++ spreadBullets cfg T t,
          tanks := st.tanks.set j { t with shotsFired := t.shotsFired + 1 },
          playerStats := statsUpd st.playerStats t.id
            (fun s => { s with shotsFired := s.shotsFired + 1 }) }

/-- The accuracy column of generateStatsHTML:
shotsFired > 0 ? Math.round(shotsHit / shotsFired * 100) : 0. -/
def accuracyPercent (s : PStats) : ℤ :=
  if 0 < s.shotsFired then round (((s.shotsHit : ℚ) / (s.shotsFired : ℚ)) * 100) else 0

/-- One bullet step of MultiTanksGame.updateBullets: advance along the
velocity, then handle the left/right walls (reflect angle to PI - angle,
decrement bounces, clamp x) and the top/bottom walls (reflect angle to
-angle, clamp y; a corner hit that already bounced on x this frame
bounces on y for free).  Returns none when the bullet is removed.
No lifetime check appears in the source: the step is independent of any
clock and bullets carry no spawn timestamp. -/
def stepBullet (cfg : Config) (T : Trig) (b : Bullet) : Option Bullet :=
  let x1 := b.x + T.tcos b.angle * b.speed
  let y1 := b.y + T.tsin b.angle * b.speed
  let r := b.size / 2
  if x1 < r ∨ x1 > cfg.mapWidth - r then
    if 0 < b.bounces then
      let b2 : Bullet :=
        { b with
            x := max r (min (cfg.mapWidth - r) x1),
            y := y1,
            angle := T.piQ - b.angle,
            bounces := b.bounces - 1 }
      if y1 < r ∨ y1 > cfg.mapHeight - r then
        some { b2 with angle := -b2.angle, y := max r (min (cfg.mapHeight - r) y1) }
      else
        some b2
    else
      none
  else
    if y1 < r ∨ y1 > cfg.mapHeight - r then
      if 0 < b.bounces then
        some { b with
            x := x1,
            y := max r (min (cfg.mapHeight - r) y1),
            angle := -b.angle,
            bounces := b.bounces - 1 }
      else
        none
    else
      some { b with x := x1, y := y1 }

/-- MultiTanksGame.updateBullets: this.bullets = this.bullets.filter(...)
with per-element mutation, i.e. a filterMap of the single-bullet step. -/
def updateBullets (cfg : Config) (T : Trig) (st : GameState) : GameState :=
  { st with bullets := st.bullets.filterMap (stepBullet cfg T) }

/-- The friendly-fire guard of checkCollisions:
bulletOwner && bulletOwner.team === tank.team (false when the owner id
resolves to no tank). -/
def ownerSameTeam (tanks : List Tank) (oid : ℕ) (tm : Option Team) : Bool :=
  match findTank tanks oid with
  | some o => decide (o.team = tm)
  | none => false

/-- Mutate the first tank whose id is oid (the object this.tanks.find
returns); no-op when absent. -/
def bumpOwner (tanks : List Tank) (oid : ℕ) (f : Tank → Tank) : List Tank :=
  match tanks.findIdx? (fun t => decide (t.id = oid)) with
  | some oi =>
      match tanks[oi]? with
      | some o => tanks.set oi (f o)
      | none => tanks
  | none => tanks

/-- The body of the bullet-vs-tank double loop of checkCollisions for the
captured bullet b sitting at index i and the tank at index j: skip dead
tanks and the owner, skip same-team hits in TDM, absorb the bullet
without damage on an active invincibility stack, otherwise apply
BULLET_DAMAGE, splice the bullet at index i, credit the owner's shotsHit,
and on lethal damage record the death bookkeeping. -/
def btPair (cfg : Config) (now : ℚ) (b : Bullet) (i : ℕ) (st : GameState)
    (j : ℕ) : GameState :=
  match st.tanks[j]? with
  | none => st
  | some tank =>
    if ¬tank.isAlive ∨ tank.id = b.ownerId then st
    else if st.gameMode = Mode.tdm ∧ ownerSameTeam st.tanks b.ownerId tank.team then st
    else if distLt (b.x - tank.x) (b.y - tank.y) (tank.size / 2 + b.size / 2) then
      if 0 < tank.powerups.invincibility.length then
        { st with bullets := st.bullets.eraseIdx i }
      else
        let tank1 := { tank with health := tank.health - cfg.bulletDamage }
        let tanks1 := st.tanks.set j tank1
        let bullets1 := st.bullets.eraseIdx i
        let tanks2 := bumpOwner tanks1 b.ownerId
          (fun o => { o with shotsHit := o.shotsHit + 1 })
        let stats1 :=
          match findTank tanks1 b.ownerId with
          | some o => statsUpd st.playerStats o.id
              (fun s => { s with shotsHit := s.shotsHit + 1 })
          | none => st.playerStats
        if tank1.health ≤ 0 then
          let killedByStr :=
            match findTank tanks1 b.ownerId with
            | some o => o.name
            | none => "Unknown"
          let tank2 := { tank1 with
              isAlive := false, deathTime := now, killedBy := some killedByStr }
          let tanks3 := tanks2.set j tank2
          let tanks4 := bumpOwner tanks3 b.ownerId
            (fun o => { o with kills := o.kills + 1 })
          let stats2 :=
            match findTank tanks1 b.ownerId with
            | some o => statsUpd stats1 o.id
                (fun s => { s with
                    kills := s.kills + 1, killsList := s.killsList ++ [tank1.name] })
            | none => stats1
          let stats3 := statsUpd stats2 tank1.id
            (fun s => { s with
                deaths := s.deaths + 1, deathTime := now,
                killedBy := some killedByStr,
                killedByList := s.killedByList ++ [killedByStr] })
          { st with tanks := tanks4, bullets := bullets1, playerStats := stats3 }
        else
          { st with tanks := tanks2, bullets := bullets1, playerStats := stats1 }
    else st

/-- Inner this.tanks.forEach of the bullet-vs-tank phase: the tank list
never changes length, so the fold ranges over the initial indices. -/
def btInner (cfg : Config) (now : ℚ) (b : Bullet) (i : ℕ) (st : GameState) :
    GameState :=
  (List.range st.tanks.length).foldl (btPair cfg now b i) st

/-- Outer this.bullets.forEach of the bullet-vs-tank phase.  The loop
index advances by one per iteration even after splices (so the element
shifted into a removed slot is skipped) and ends once it reaches the
current length; the fuel is the initial length, which bounds the
iteration count because the list never grows. -/
def btOuter (cfg : Config) (now : ℚ) : ℕ → ℕ → GameState → GameState
  | 0, _, st => st
  | fuel + 1, i, st =>
      match st.bullets[i]? with
      | none => st
      | some b => btOuter cfg now fuel (i + 1) (btInner cfg now b i st)

/-- One obstacle check of the bullet-vs-obstacle phase, acting on the
captured bullet value, the bullet list, and a flag recording whether the
slot at index i still holds the captured bullet.  Rock hits reflect off
the surface normal (the source divides by the distance twice; the model
divides by the squared distance once, which is the same rational), rect
hits reflect off the nearest edge axis; with no bounces left the bullet
is spliced at index i. -/
def boPair (T : Trig) (i : ℕ) (s : Bullet × List Bullet × Bool)
    (ob : Obstacle) : Bullet × List Bullet × Bool :=
  let b := s.1
  let bs := s.2.1
  let present := s.2.2
  let hit : Bool :=
    match ob with
    | Obstacle.rock ox oy rad _ => distLt (b.x - ox) (b.y - oy) rad
    | Obstacle.rect ox oy w h _ =>
        decide (|b.x - ox| < w / 2) && decide (|b.y - oy| < h / 2)
  if hit then
    if 0 < b.bounces then
      let b' : Bullet :=
        match ob with
        | Obstacle.rock ox oy _ _ =>
            let dx := b.x - ox
            let dy := b.y - oy
            let dd := dx ^ 2 + dy ^ 2
            if 0 < dd then
              let vx := T.tcos b.angle
              let vy := T.tsin b.angle
              let dq := (vx * dx + vy * dy) / dd
              { b with
                  bounces := b.bounces - 1,
                  angle := T.atan2 (vy - 2 * dq * dy) (vx - 2 * dq * dx) }
            else
              { b with bounces := b.bounces - 1 }
        | Obstacle.rect ox oy w h _ =>
            let dL := |b.x - ox|
            let dR := |b.x - (ox + w)|
            let dT := |b.y - oy|
            let dB := |b.y - (oy + h)|
            let m := min (min dL dR) (min dT dB)
            if m = dL ∨ m = dR then
              { b with bounces := b.bounces - 1, angle := T.piQ - b.angle }
            else
              { b with bounces := b.bounces - 1, angle := -b.angle }
      (b', if present then bs.set i b' else bs, present)
    else
      (b, bs.eraseIdx i, false)
  else s

/-- Inner this.obstacles.forEach for the captured bullet at index i. -/
def boInner (T : Trig) (b : Bullet) (i : ℕ) (st : GameState) : GameState :=
  let r := st.obstacles.foldl (boPair T i) (b, st.bullets, true)
  { st with bullets := r.2.1 }

/-- Outer this.bullets.forEach of the bullet-vs-obstacle phase. -/
def boOuter (T : Trig) : ℕ → ℕ → GameState → GameState
  | 0, _, st => st
  | fuel + 1, i, st =>
      match st.bullets[i]? with
      | none => st
      | some b => boOuter T fuel (i + 1) (boInner T b i st)

/-- MultiTanksGame.checkCollisions: the bullet-vs-tank pass followed by
the bullet-vs-obstacle pass. -/
def checkCollisions (cfg : Config) (T : Trig) (now : ℚ) (st : GameState) :
    GameState :=
  let st1 := btOuter cfg now st.bullets.length 0 st
  boOuter T st1.bullets.length 0 st1

/-- One stack array tick of GamePowerups.update: the source walks the
array from the last index down, subtracting deltaTime and splicing
entries that reach ≤ 0, which leaves exactly the decremented entries
that stay positive, in order. -/
def tickArr (dt : ℚ) (arr : List ℚ) : List ℚ :=
  (arr.map (fun v => v - dt)).filter (fun v => decide (0 < v))

/-- Stack ticking for one tank (dead tanks are skipped). -/
def tickTank (dt : ℚ) (t : Tank) : Tank :=
  if ¬t.isAlive then t
  else
    { t with powerups :=
        { invincibility := tickArr dt t.powerups.invincibility,
          speed := tickArr dt t.powerups.speed,
          rapidFire := tickArr dt t.powerups.rapidFire,
          spreadShot := tickArr dt t.powerups.spreadShot,
          bouncingBullets := tickArr dt t.powerups.bouncingBullets } }

/-- The stack-ticking pass of GamePowerups.update. -/
def tickPhase (dt : ℚ) (st : GameState) : GameState :=
  { st with tanks := st.tanks.map (tickTank dt) }

/-- The weight table this.powerupWeights of the GamePowerups module. -/
def weightEntries : List (PowerupType × ℚ) :=
  [(PowerupType.INVINCIBILITY, 1), (PowerupType.BOUNCING_BULLETS, 4),
   (PowerupType.SPEED, 6), (PowerupType.SPREAD_SHOT, 8),
   (PowerupType.RAPID_FIRE, 8), (PowerupType.HEALTH, 2)]

/-- The subtraction walk of getWeightedRandomType; the empty-list case is
the source's fallback return of the last entry's type (HEALTH). -/
def pickWeighted : ℚ → List (PowerupType × ℚ) → PowerupType
  | _, [] => PowerupType.HEALTH
  | r, (ty, w) :: rest => if r - w ≤ 0 then ty else pickWeighted (r - w) rest

/-- GamePowerups.getWeightedRandomType with u the Math.random() draw. -/
def getWeightedRandomType (u : ℚ) : PowerupType :=
  let total := (weightEntries.map Prod.snd).sum
  pickWeighted (u * total) weightEntries

/-- Position validity of GamePowerups.spawn.  For rock obstacles the
source compares the distance against obstacle.size + POWERUP_SIZE, but
rocks carry no size field (only radius), so the comparison is against
NaN and is always false: rocks never invalidate a position.  Rectangles
are treated with x/y as the top-left corner here, as written. -/
def spawnValid (cfg : Config) (st : GameState) (x y : ℚ) : Bool :=
  (st.obstacles.all fun ob =>
    match ob with
    | Obstacle.rock _ _ _ _ => true
    | Obstacle.rect ox oy w h _ =>
        !(decide (x - cfg.powerupSize < ox + w) &&
          decide (x + cfg.powerupSize > ox) &&
          decide (y - cfg.powerupSize < oy + h) &&
          decide (y + cfg.powerupSize > oy))) &&
  (st.tanks.all fun t =>
    !(distLt (x - t.x) (y - t.y) (t.size + cfg.powerupSize)))

/-- The 50-attempt rejection-sampling loop of GamePowerups.spawn;
k is the Math.random stream position, each attempt consumes two draws.
Returns the found position (if any) and the next stream position. -/
def spawnFindPos (cfg : Config) (st : GameState) (rng : ℕ → ℚ) :
    ℕ → ℕ → Option (ℚ × ℚ) × ℕ
  | 0, k => (none, k)
  | fuel + 1, k =>
      let x := cfg.spawnDistanceFromEdge +
        rng k * (cfg.mapWidth - 2 * cfg.spawnDistanceFromEdge)
      let y := cfg.spawnDistanceFromEdge +
        rng (k + 1) * (cfg.mapHeight - 2 * cfg.spawnDistanceFromEdge)
      if spawnValid cfg st x y then (some (x, y), k + 2)
      else spawnFindPos cfg st rng fuel (k + 2)

/-- GamePowerups.spawn: draw a weighted type, rejection-sample a
position, and push the powerup (its id is Date.now() + Math.random()). -/
def spawnPowerup (cfg : Config) (rng : ℕ → ℚ) (now : ℚ) (st : GameState) :
    GameState :=
  let ty := getWeightedRandomType (rng st.rngIdx)
  match spawnFindPos cfg st rng 50 (st.rngIdx + 1) with
  | (some (x, y), k) =>
      { st with
          powerups := st.powerups ++
            [{ id := now + rng k, x := x, y := y, ptype := ty,
               size := cfg.powerupSize, alive := true, rotation := 0 }],
          rngIdx := k + 1 }
  | (none, k) => { st with rngIdx := k }

/-- The spawn-timer block of GamePowerups.update: tick the timer and, on
expiry, spawn and re-arm with a random interval in [MIN, MAX]. -/
def spawnPhase (cfg : Config) (rng : ℕ → ℚ) (now dt : ℚ) (st : GameState) :
    GameState :=
  let st1 := { st with powerupSpawnTimer := st.powerupSpawnTimer - dt }
  if st1.powerupSpawnTimer ≤ 0 then
    let st2 := spawnPowerup cfg rng now st1
    { st2 with
        powerupSpawnTimer := cfg.powerupSpawnIntervalMin +
          rng st2.rngIdx *
            (cfg.powerupSpawnIntervalMax - cfg.powerupSpawnIntervalMin),
        rngIdx := st2.rngIdx + 1 }
  else st1

/-- Mark the powerup at index i dead (powerup.alive = false written
through the captured object reference). -/
def markDead (ps : List Powerup) (i : ℕ) : List Powerup :=
  match ps[i]? with
  | some q => ps.set i { q with alive := false }
  | none => ps

/-- The pickup condition of GamePowerups.update:
distance < tank.size / 2 + powerup.size / 2. -/
def pickCond (p : Powerup) (t : Tank) : Bool :=
  t.isAlive && distLt (p.x - t.x) (p.y - t.y) (t.size / 2 + p.size / 2)

/-- One tank check of the pickup loop for the captured powerup p at
index i: dead tanks are skipped, an overlapping live tank receives the
effect and the powerup is marked dead.  Note the source never re-checks
powerup.alive inside this tank loop. -/
def pickupTank (cfg : Config) (p : Powerup) (i : ℕ) (st : GameState)
    (j : ℕ) : GameState :=
  match st.tanks[j]? with
  | none => st
  | some t =>
      if pickCond p t then
        let st1 := powerupsApply cfg st j p.ptype
        { st1 with powerups := markDead st1.powerups i }
      else st

/-- Inner this.game.tanks.forEach of the pickup loop. -/
def pickupInner (cfg : Config) (p : Powerup) (i : ℕ) (st : GameState) :
    GameState :=
  (List.range st.tanks.length).foldl (pickupTank cfg p i) st

/-- Outer this.game.powerups.forEach of the pickup loop: a powerup
already dead when visited is spliced (the loop index still advances,
skipping the shifted element); a live one is checked against every
tank. -/
def pickupOuter (cfg : Config) : ℕ → ℕ → GameState → GameState
  | 0, _, st => st
  | fuel + 1, i, st =>
      match st.powerups[i]? with
      | none => st
      | some p =>
          if ¬p.alive then
            pickupOuter cfg fuel (i + 1) { st with powerups := st.powerups.eraseIdx i }
          else
            pickupOuter cfg fuel (i + 1) (pickupInner cfg p i st)

/-- GamePowerups.update: stack ticking, the spawn timer, then the
pickup loop. -/
def powerupsUpdate (cfg : Config) (rng : ℕ → ℚ) (now dt : ℚ)
    (st : GameState) : GameState :=
  let st1 := tickPhase dt st
  let st2 := spawnPhase cfg rng now dt st1
  pickupOuter cfg st2.powerups.length 0 st2

/-- Modelled from the spec: class GameCollisions is instantiated by
game.js but its source is not under src/; per spec 4.2 and 4.4 the
candidate position is tested against every rock (circle test) and
rectangle (combined half-extent test). -/
def checkTankObstacleCollision (obstacles : List Obstacle) (size x y : ℚ) :
    Bool :=
  obstacles.any fun ob =>
    match ob with
    | Obstacle.rock ox oy rad _ => distLt (x - ox) (y - oy) (size / 2 + rad)
    | Obstacle.rect ox oy w h _ =>
        decide (|x - ox| < w / 2 + size / 2) &&
        decide (|y - oy| < h / 2 + size / 2)

/-- Modelled from the spec: GameCollisions.moveTankWithSliding is not
under src/; per spec 4.4 it tries the direct move, the horizontal-only
move, the vertical-only move, then perpendicular slides at +90 and -90
degrees with a reduced slide speed; the first non-colliding candidate
updates position and facing, otherwise the tank stays put. -/
def moveTankWithSliding (cfg : Config) (T : Trig) (obstacles : List Obstacle)
    (t : Tank) (newX newY moveAngle : ℚ) : Tank :=
  if ¬checkTankObstacleCollision obstacles t.size newX newY then
    { t with x := newX, y := newY, angle := moveAngle }
  else if ¬checkTankObstacleCollision obstacles t.size newX t.y then
    { t with x := newX, angle := moveAngle }
  else if ¬checkTankObstacleCollision obstacles t.size t.x newY then
    { t with y := newY, angle := moveAngle }
  else
    let slideSpeed := t.speed * cfg.slideFactor
    let a1 := moveAngle + T.piQ / 2
    let sx1 := t.x + T.tcos a1 * slideSpeed
    let sy1 := t.y + T.tsin a1 * slideSpeed
    if ¬checkTankObstacleCollision obstacles t.size sx1 sy1 then
      { t with x := sx1, y := sy1, angle := moveAngle }
    else
      let a2 := moveAngle - T.piQ / 2
      let sx2 := t.x + T.tcos a2 * slideSpeed
      let sy2 := t.y + T.tsin a2 * slideSpeed
      if ¬checkTankObstacleCollision obstacles t.size sx2 sy2 then
        { t with x := sx2, y := sy2, angle := moveAngle }
      else t

/-- Modelled from the spec: GameCollisions.constrainTankToMap is not
under src/; per spec 4.4 it clamps both coordinates into
[size/2, mapDimension - size/2]. -/
def constrainTankToMap (cfg : Config) (t : Tank) : Tank :=
  { t with
      x := max (t.size / 2) (min (cfg.mapWidth - t.size / 2) t.x),
      y := max (t.size / 2) (min (cfg.mapHeight - t.size / 2) t.y) }

/-- Membership test on game.activeControls for one player's control. -/
def hasControl (st : GameState) (pid : ℕ) (c : Control) : Bool :=
  st.activeControls.contains (pid, c)

/-- MultiTanksGame.updatePlayerTank for the tank at index j: movement
from the A_SHARP/A/B/C notes (diagonals normalised by sqrt 2) routed
through the sliding resolver, turret rotation from C_SHARP/D_SHARP, and
a D-note shot gated by the rapid-fire-scaled cooldown. -/
def updatePlayerTank (cfg : Config) (T : Trig) (now : ℚ) (st : GameState)
    (j : ℕ) : GameState :=
  match st.tanks[j]? with
  | none => st
  | some t =>
      let pid := t.id
      let moveUp := hasControl st pid Control.A_SHARP
      let moveLeft := hasControl st pid Control.A
      let moveDown := hasControl st pid Control.B
      let moveRight := hasControl st pid Control.C
      let aimLeft := hasControl st pid Control.C_SHARP
      let aimRight := hasControl st pid Control.D_SHARP
      let shoot := hasControl st pid Control.D
      let moveX0 : ℚ := (if moveLeft then -1 else 0) + (if moveRight then 1 else 0)
      let moveY0 : ℚ := (if moveUp then -1 else 0) + (if moveDown then 1 else 0)
      let moveX := if moveX0 ≠ 0 ∧ moveY0 ≠ 0 then moveX0 / T.sqrt2 else moveX0
      let moveY := if moveX0 ≠ 0 ∧ moveY0 ≠ 0 then moveY0 / T.sqrt2 else moveY0
      let t1 :=
        if moveX ≠ 0 ∨ moveY ≠ 0 then
          let moveAngle := T.atan2 moveY moveX
          moveTankWithSliding cfg T st.obstacles t
            (t.x + moveX * t.speed) (t.y + moveY * t.speed) moveAngle
        else t
      let t2 :=
        { t1 with turretAngle := t1.turretAngle
            - (if aimLeft then t1.turretRotationSpeed else 0)
            + (if aimRight then t1.turretRotationSpeed else 0) }
      let st1 := { st with tanks := st.tanks.set j t2 }
      if shoot then
        let stackCount := t2.powerups.rapidFire.length
        let mult := if 0 < stackCount then cfg.powerupFireRateMultiplier ^ stackCount else 1
        if now - t2.lastShot > cfg.shootCooldown / mult then
          let st2 := shootBullet cfg T st1 j
          match st2.tanks[j]? with
          | some t3 => { st2 with tanks := st2.tanks.set j { t3 with lastShot := now } }
          | none => st2
        else st1
      else st1

/-- The AI controller (window.aiBehavior.updateAITank together with the
collision resolver it calls into), taken as an opaque parameter of the
frame pipeline: it may mutate the acting tank and fire bullets. -/
def AIStep : Type := GameState → ℕ → ℚ → GameState

/-- One iteration of MultiTanksGame.updateTanks for the tank at index j:
skip dead tanks, scale speed by the speed-stack multiplier, run the AI
or player update, restore the original speed, and clamp to the map. -/
def updateTanksStep (ai : AIStep) (cfg : Config) (T : Trig) (now dt : ℚ)
    (st : GameState) (j : ℕ) : GameState :=
  match st.tanks[j]? with
  | none => st
  | some t =>
      if ¬t.isAlive then st
      else
        let stackCount := t.powerups.speed.length
        let mult := if 0 < stackCount then cfg.powerupSpeedMultiplier ^ stackCount else 1
        let originalSpeed := t.speed
        let st1 := { st with tanks := st.tanks.set j { t with speed := originalSpeed * mult } }
        let st2 := if t.isAI then ai st1 j dt else updatePlayerTank cfg T now st1 j
        let st3 :=
          match st2.tanks[j]? with
          | some t2 => { st2 with tanks := st2.tanks.set j { t2 with speed := originalSpeed } }
          | none => st2
        match st3.tanks[j]? with
        | some t3 => { st3 with tanks := st3.tanks.set j (constrainTankToMap cfg t3) }
        | none => st3

/-- MultiTanksGame.updateTanks: the per-tank loop (the tank list never
changes length, so the fold ranges over the initial indices). -/
def updateTanks (ai : AIStep) (cfg : Config) (T : Trig) (now dt : ℚ)
    (st : GameState) : GameState :=
  (List.range st.tanks.length).foldl (updateTanksStep ai cfg T now dt) st

/-- MultiTanksGame.updateAI: the source body is only a comment. -/
def updateAIPhase (dt : ℚ) (st : GameState) : GameState :=
  let _ := dt
  st

/-- MultiTanksGame.endGame restricted to the simulation state (music and
the statistics overlay are I/O collaborators). -/
def endGame (now : ℚ) (st : GameState) : GameState :=
  { st with gameEndTime := now, gameState := GState.gameOver }

/-- Whether the team roster member with the given id is a living tank. -/
def rosterAlive (tanks : List Tank) (i : ℕ) : Bool :=
  match findTank tanks i with
  | some t => t.isAlive
  | none => false

/-- MultiTanksGame.checkGameEnd: FFA ends with at most one tank alive,
TDM when either roster has no living member; no campaign branch. -/
def checkGameEnd (now : ℚ) (st : GameState) : GameState :=
  match st.gameMode with
  | Mode.ffa =>
      if (st.tanks.filter (fun t => t.isAlive)).length ≤ 1 then endGame now st
      else st
  | Mode.tdm =>
      let redAlive := (st.teamsRed.filter (rosterAlive st.tanks)).length
      let blueAlive := (st.teamsBlue.filter (rosterAlive st.tanks)).length
      if redAlive = 0 ∨ blueAlive = 0 then endGame now st else st
  | Mode.campaign => st

/-- MultiTanksGame.update: when not paused, updateTanks, updateBullets,
updatePowerups, checkCollisions, updateAI (a stub), checkGameEnd, in
that order. -/
def update (ai : AIStep) (cfg : Config) (T : Trig) (rng : ℕ → ℚ)
    (now dt : ℚ) (st : GameState) : GameState :=
  if st.isPaused then st
  else
    checkGameEnd now (updateAIPhase dt (checkCollisions cfg T now
      (powerupsUpdate cfg rng now dt (updateBullets cfg T
        (updateTanks ai cfg T now dt st)))))

/-! ## Concrete fixtures for witnesses and counterexamples -/

/-- Empty powerup stacks. -/
def baseStacks : PowerupStacks :=
  { invincibility := [], speed := [], rapidFire := [],
    spreadShot := [], bouncingBullets := [] }

/-- A freshly created player tank (createTank defaults). -/
def baseTank : Tank where
  id := 0
  name := "Player 1"
  x := 100
  y := 100
  angle := 0
  turretAngle := 0
  health := 30
  maxHealth := 30
  color := "#ff4444"
  isAI := false
  team := none
  lastShot := 0
  size := 30
  speed := 2
  turretLength := 40
  turretRotationSpeed := 1/25
  isAlive := true
  shotsFired := 0
  shotsHit := 0
  kills := 0
  deaths := 0
  timeAlive := 0
  deathTime := 0
  killedBy := none
  powerups := baseStacks

/-- Fresh statistics entry (createTank). -/
def baseStats : PStats where
  name := "Player 1"
  isAI := false
  team := none
  shotsFired := 0
  shotsHit := 0
  kills := 0
  deaths := 0
  timeAlive := 0
  deathTime := 0
  killedBy := none
  killsList := []
  killedByList := []
  powerupsCollected := 0

/-- An empty running FFA game state. -/
def baseState : GameState where
  tanks := []
  bullets := []
  powerups := []
  obstacles := []
  playerStats := []
  teamsRed := []
  teamsBlue := []
  gameMode := Mode.ffa
  isPaused := false
  gameState := GState.playing
  gameStartTime := 0
  gameEndTime := 0
  powerupSpawnTimer := 100000
  activeControls := []
  numPlayers := 0
  rngIdx := 0

/-- A concrete host-math model for witnesses: every angle has direction
vector (1, 0). -/
def constTrig : Trig where
  tcos := fun _ => 1
  tsin := fun _ => 0
  atan2 := fun _ _ => 0
  piQ := 3
  sqrt2 := 3/2

/-! ## Generic loop-invariant helpers -/

/-- Invariant preservation through List.foldl. -/
theorem foldl_pres {σ α : Type _} (P : σ → Prop) (f : σ → α → σ)
    (h : ∀ s a, P s → P (f s a)) :
    ∀ (l : List α) (s : σ), P s → P (l.foldl f s)
  | [], _, hs => hs
  | a :: l, s, hs => foldl_pres P f h l (f s a) (h s a hs)

/-! ## C4: powerup stacking semantics -/

/-- C4 counterexample: applying INVINCIBILITY (resp. BOUNCING_BULLETS)
to a tank whose stack is already non-empty pushes a second entry instead
of extending the existing one, so the stack list reaches length 2 > 1. -/
theorem C4_push_counterexample :
    (applyPowerupTank gameConfig PowerupType.INVINCIBILITY
        { baseTank with powerups := { baseStacks with invincibility := [15000] } }
      ).powerups.invincibility = [15000, 15000] ∧
    1 < (applyPowerupTank gameConfig PowerupType.INVINCIBILITY
        { baseTank with powerups := { baseStacks with invincibility := [15000] } }
      ).powerups.invincibility.length ∧
    (applyPowerupTank gameConfig PowerupType.BOUNCING_BULLETS
        { baseTank with powerups := { baseStacks with bouncingBullets := [15000] } }
      ).powerups.bouncingBullets = [15000, 15000] := by
  refine ⟨rfl, ?_, rfl⟩
  decide

/-- C4 (amended): every one of the five timed powerup types pushes a new
POWERUP_DURATION entry onto its stack list, whether or not the list is
already non-empty; there is no duration-extension special case, and
HEALTH heals capped at maxHealth. -/
theorem C4_all_types_push (cfg : Config) (t : Tank) :
    (applyPowerupTank cfg PowerupType.INVINCIBILITY t).powerups.invincibility
      = t.powerups.invincibility ++ [cfg.powerupDuration] ∧
    (applyPowerupTank cfg PowerupType.BOUNCING_BULLETS t).powerups.bouncingBullets
      = t.powerups.bouncingBullets ++ [cfg.powerupDuration] ∧
    (applyPowerupTank cfg PowerupType.SPEED t).powerups.speed
      = t.powerups.speed ++ [cfg.powerupDuration] ∧
    (applyPowerupTank cfg PowerupType.RAPID_FIRE t).powerups.rapidFire
      = t.powerups.rapidFire ++ [cfg.powerupDuration] ∧
    (applyPowerupTank cfg PowerupType.SPREAD_SHOT t).powerups.spreadShot
      = t.powerups.spreadShot ++ [cfg.powerupDuration] ∧
    (applyPowerupTank cfg PowerupType.HEALTH t).health
      = min t.maxHealth (t.health + cfg.powerupHealthBoost) :=
  ⟨rfl, rfl, rfl, rfl, rfl, rfl⟩

/-! ## C6: bullet lifetime -/

/-- A bullet well inside the map whose model direction is stationary
(direction vector (0, 0) in this host-math model), used to show that no
amount of elapsed frames destroys it. -/
def zeroTrig : Trig where
  tcos := fun _ => 0
  tsin := fun _ => 0
  atan2 := fun _ _ => 0
  piQ := 3
  sqrt2 := 3/2

/-- An old bullet sitting mid-map. -/
def c6Bullet : Bullet where
  x := 600
  y := 300
  angle := 0
  speed := 6
  size := 4
  ownerId := 0
  color := "#ff4444"
  bounces := 0

/-- C6: the per-frame bullet update never destroys a bullet by age: the
step function consumes no clock and bullets carry no spawn timestamp.  A
moving interior bullet survives the frame, and a bullet whose model
velocity is zero survives every one of n frames for all n (so in
particular well past BULLET_MAX_LIFETIME_MS = 5000 ms, the constant that
is declared in GAME_CONFIG but read nowhere). -/
theorem C6_no_lifetime_check :
    (updateBullets gameConfig constTrig { baseState with bullets := [c6Bullet] }).bullets
      = [{ c6Bullet with x := 606 }] ∧
    ∀ n : ℕ, ((fun s => updateBullets gameConfig zeroTrig s)^[n]
        { baseState with bullets := [c6Bullet] }).bullets = [c6Bullet] := by
  constructor
  · norm_num [updateBullets, stepBullet, gameConfig, constTrig, c6Bullet, baseState,
      List.filterMap_cons, List.filterMap_nil]
  · have hfix : updateBullets gameConfig zeroTrig { baseState with bullets := [c6Bullet] }
        = { baseState with bullets := [c6Bullet] } := by
      norm_num [updateBullets, stepBullet, gameConfig, zeroTrig, c6Bullet, baseState,
        List.filterMap_cons, List.filterMap_nil]
    intro n
    have hiter : ∀ m : ℕ, (fun s => updateBullets gameConfig zeroTrig s)^[m]
        { baseState with bullets := [c6Bullet] }
        = { baseState with bullets := [c6Bullet] } := by
      intro m
      induction m with
      | zero => rfl
      | succ k ih => rw [Function.iterate_succ_apply', ih, hfix]
    rw [hiter]

/-! ## C3: spread-shot bullet fan -/

/-- One shootBullet call creates exactly 3 ^ stackCount bullets. -/
theorem spreadBullets_length (cfg : Config) (T : Trig) (t : Tank) :
    (spreadBullets cfg T t).length = 3 ^ t.powerups.spreadShot.length := by
  by_cases hn : 0 < t.powerups.spreadShot.length
  · simp only [spreadBullets, if_pos hn]
    split
    · next h => simp [h]
    · simp only [List.length_map, List.length_range]
  · have h0 : t.powerups.spreadShot.length = 0 := by omega
    simp [spreadBullets, h0]

/-- The fired angle at position i of the spread fan, in closed form. -/
theorem spreadBullets_angle (cfg : Config) (T : Trig) (t : Tank)
    (hn : 0 < t.powerups.spreadShot.length) (i : ℕ)
    (hi : i < 3 ^ t.powerups.spreadShot.length) :
    ((spreadBullets cfg T t)[i]?).map Bullet.angle
      = some (t.turretAngle +
          ((i : ℚ) - ((3 : ℚ) ^ t.powerups.spreadShot.length - 1) / 2) *
            cfg.powerupSpreadAngle) := by
  have hc : (1 : ℕ) < 3 ^ t.powerups.spreadShot.length := by
    calc (1 : ℕ) < 3 ^ 1 := by norm_num
    _ ≤ 3 ^ t.powerups.spreadShot.length :=
        Nat.pow_le_pow_right (by norm_num) hn
  have hc1 : ¬(3 ^ t.powerups.spreadShot.length = 1) := by omega
  have hden : (3 : ℚ) ^ t.powerups.spreadShot.length - 1 ≠ 0 := by
    have h3 : (3 : ℚ) ≤ (3 : ℚ) ^ t.powerups.spreadShot.length := by
      calc (3 : ℚ) = 3 ^ 1 := by norm_num
      _ ≤ (3 : ℚ) ^ t.powerups.spreadShot.length :=
          pow_le_pow_right (by norm_num) hn
    intro h
    have : (3 : ℚ) ^ t.powerups.spreadShot.length = 1 := by linarith
    rw [this] at h3
    norm_num at h3
  simp only [spreadBullets, if_pos hn, if_neg hc1, List.getElem?_map]
  rw [List.getElem?_range hi]
  simp only [Option.map_some, Option.some.injEq, mkBullet]
  push_cast
  field_simp
  ring

/-- C3: one shootBullet call by the tank at index j appends exactly
3 ^ n bullets for spreadShot stack count n; their angles are symmetric
about the turret angle (entries i and len-1-i sum to twice the turret
angle) and evenly spaced by POWERUP_SPREAD_ANGLE. -/
theorem C3_spread_fan (cfg : Config) (T : Trig) (st : GameState) (j : ℕ)
    (t : Tank) (hj : st.tanks[j]? = some t) :
    (shootBullet cfg T st j).bullets = st.bullets ++ spreadBullets cfg T t ∧
    (spreadBullets cfg T t).length = 3 ^ t.powerups.spreadShot.length ∧
    (∀ i a b, (spreadBullets cfg T t)[i]? = some a →
      (spreadBullets cfg T t)[(spreadBullets cfg T t).length - 1 - i]? = some b →
      a.angle + b.angle = 2 * t.turretAngle) ∧
    (∀ i a b, (spreadBullets cfg T t)[i]? = some a →
      (spreadBullets cfg T t)[i + 1]? = some b →
      b.angle - a.angle = cfg.powerupSpreadAngle) := by
  refine ⟨by simp [shootBullet, hj], spreadBullets_length cfg T t, ?_, ?_⟩
  · intro i a b ha hb
    by_cases hn : 0 < t.powerups.spreadShot.length
    · have hlen := spreadBullets_length cfg T t
      have hi : i < 3 ^ t.powerups.spreadShot.length := by
        have h := (List.getElem?_eq_some.mp ha).1
        rwa [hlen] at h
      rw [hlen] at hb
      have hpos : 0 < 3 ^ t.powerups.spreadShot.length :=
        Nat.pow_pos (by norm_num)
      have hib : 3 ^ t.powerups.spreadShot.length - 1 - i <
          3 ^ t.powerups.spreadShot.length := by omega
      have hfa := spreadBullets_angle cfg T t hn i hi
      have hfb := spreadBullets_angle cfg T t hn
        (3 ^ t.powerups.spreadShot.length - 1 - i) hib
      rw [ha] at hfa
      rw [hb] at hfb
      simp only [Option.map_some', Option.some.injEq] at hfa hfb
      have hcast : ((3 ^ t.powerups.spreadShot.length - 1 - i : ℕ) : ℚ)
          = (3 : ℚ) ^ t.powerups.spreadShot.length - 1 - (i : ℚ) := by
        have h1 : i ≤ 3 ^ t.powerups.spreadShot.length - 1 := by omega
        have h2 : 1 ≤ 3 ^ t.powerups.spreadShot.length :=
          Nat.one_le_pow _ _ (by norm_num)
        push_cast [Nat.cast_sub h1, Nat.cast_sub h2]
        ring
      rw [hcast] at hfb
      rw [hfa, hfb]
      ring
    · have h0 : t.powerups.spreadShot.length = 0 := by omega
      have hsingle : spreadBullets cfg T t = [mkBullet cfg T t t.turretAngle] := by
        simp [spreadBullets, h0]
      rw [hsingle] at ha hb
      have hi : i < 1 := by
        rw [List.getElem?_eq_some] at ha
        simpa using ha.1
      have hi0 : i = 0 := by omega
      subst hi0
      have ha' : mkBullet cfg T t t.turretAngle = a := by simpa using ha
      have hb' : mkBullet cfg T t t.turretAngle = b := by simpa using hb
      rw [← ha', ← hb']
      simp only [mkBullet]
      ring
  · intro i a b ha hb
    have hn : 0 < t.powerups.spreadShot.length := by
      by_contra hn
      have h0 : t.powerups.spreadShot.length = 0 := by omega
      have hsingle : spreadBullets cfg T t = [mkBullet cfg T t t.turretAngle] := by
        simp [spreadBullets, h0]
      rw [hsingle] at hb
      have : i + 1 < 1 := by
        rw [List.getElem?_eq_some] at hb
        simpa using hb.1
      omega
    have hi : i < 3 ^ t.powerups.spreadShot.length := by
      rw [List.getElem?_eq_some] at ha
      have := ha.1
      rwa [spreadBullets_length] at this
    have hib : i + 1 < 3 ^ t.powerups.spreadShot.length := by
      rw [List.getElem?_eq_some] at hb
      have := hb.1
      rwa [spreadBullets_length] at this
    have hfa := spreadBullets_angle cfg T t hn i hi
    have hfb := spreadBullets_angle cfg T t hn (i + 1) hib
    rw [ha] at hfa
    rw [hb] at hfb
    simp only [Option.map_some', Option.some.injEq] at hfa hfb
    rw [hfa, hfb]
    push_cast
    ring

/-! ## C2: invincibility absorbs hits -/

/-- C2: in the bullet-vs-tank resolution, when the bullet at index i
overlaps a living non-owner victim whose invincibility stack is
non-empty (and the TDM same-team skip does not apply), the entire effect
is the splice of that bullet: the tank list (health included) and the
statistics map are untouched, so no damage and no kill/death
bookkeeping occur. -/
theorem C2_invincible_hit (cfg : Config) (now : ℚ) (st : GameState)
    (b : Bullet) (i j : ℕ) (tank : Tank)
    (hj : st.tanks[j]? = some tank)
    (halive : tank.isAlive = true)
    (howner : ¬tank.id = b.ownerId)
    (hteam : ¬(st.gameMode = Mode.tdm ∧ ownerSameTeam st.tanks b.ownerId tank.team))
    (hhit : distLt (b.x - tank.x) (b.y - tank.y) (tank.size / 2 + b.size / 2) = true)
    (hinv : 0 < tank.powerups.invincibility.length) :
    btPair cfg now b i st j = { st with bullets := st.bullets.eraseIdx i } := by
  simp [btPair, hj, halive, howner, hteam, hhit, hinv]

/-- The invincible victim for the C2 witness. -/
def c2Victim : Tank :=
  { baseTank with
      id := 1, name := "Player 2", x := 140,
      powerups := { baseStacks with invincibility := [15000] } }

/-- A bullet owned by tank 0 sitting on the victim. -/
def c2Bullet : Bullet where
  x := 140
  y := 100
  angle := 0
  speed := 6
  size := 4
  ownerId := 0
  color := "#ff4444"
  bounces := 0

/-- The two-tank state for the C2 witness. -/
def c2State : GameState :=
  { baseState with
      tanks := [baseTank, c2Victim],
      bullets := [c2Bullet],
      playerStats := [(0, baseStats), (1, { baseStats with name := "Player 2" })] }

/-- C2 witness: the theorem applied at a concrete overlapping hit. -/
theorem C2_invincible_hit_witness :
    btPair gameConfig 999 c2Bullet 0 c2State 1
      = { c2State with bullets := c2State.bullets.eraseIdx 0 } :=
  C2_invincible_hit gameConfig 999 c2State c2Bullet 0 1 c2Victim rfl rfl
    (by decide)
    (by decide)
    (by norm_num [distLt, c2Bullet, c2Victim, baseTank, gameConfig])
    (by decide)

/-! ## C5: bullets with two bounces cross three walls -/

/-- The x position after one frame of bullet movement. -/
def movedX (T : Trig) (b : Bullet) : ℚ := b.x + T.tcos b.angle * b.speed

/-- The y position after one frame of bullet movement. -/
def movedY (T : Trig) (b : Bullet) : ℚ := b.y + T.tsin b.angle * b.speed

/-- The moved position crosses the left or right map edge. -/
def crossX (cfg : Config) (T : Trig) (b : Bullet) : Bool :=
  decide (movedX T b < b.size / 2) ||
  decide (movedX T b > cfg.mapWidth - b.size / 2)

/-- The moved position crosses the top or bottom map edge. -/
def crossY (cfg : Config) (T : Trig) (b : Bullet) : Bool :=
  decide (movedY T b < b.size / 2) ||
  decide (movedY T b > cfg.mapHeight - b.size / 2)

/-- The moved position crosses exactly one boundary axis. -/
def crossesOneAxis (cfg : Config) (T : Trig) (b : Bullet) : Bool :=
  (crossX cfg T b && !crossY cfg T b) || (!crossX cfg T b && crossY cfg T b)

/-- The moved position crosses some boundary axis. -/
def crossesAnyAxis (cfg : Config) (T : Trig) (b : Bullet) : Bool :=
  crossX cfg T b || crossY cfg T b

/-- What one wall reflection does, per updateBullets: an x-crossing
mirrors the angle to PI - angle and clamps x to the playable band, a
y-crossing negates the angle and clamps y; either way the bounce count
drops by one and the other coordinate keeps its moved value. -/
def BouncedFrom (cfg : Config) (T : Trig) (b b' : Bullet) : Prop :=
  (crossX cfg T b = true ∧
    b' = { b with
        x := max (b.size / 2) (min (cfg.mapWidth - b.size / 2) (movedX T b)),
        y := movedY T b,
        angle := T.piQ - b.angle,
        bounces := b.bounces - 1 }) ∨
  (crossY cfg T b = true ∧
    b' = { b with
        x := movedX T b,
        y := max (b.size / 2) (min (cfg.mapHeight - b.size / 2) (movedY T b)),
        angle := -b.angle,
        bounces := b.bounces - 1 })

/-- An x-only crossing with bounces in reserve reflects off the
vertical wall. -/
theorem stepBullet_bounceX (cfg : Config) (T : Trig) (b : Bullet)
    (hx : crossX cfg T b = true) (hy : crossY cfg T b = false)
    (hb : 0 < b.bounces) :
    stepBullet cfg T b = some { b with
        x := max (b.size / 2) (min (cfg.mapWidth - b.size / 2) (movedX T b)),
        y := movedY T b,
        angle := T.piQ - b.angle,
        bounces := b.bounces - 1 } := by
  simp only [crossX, movedX, Bool.or_eq_true, decide_eq_true_eq] at hx
  simp only [crossY, movedY, Bool.or_eq_true, decide_eq_true_eq,
    Bool.or_eq_false_iff, decide_eq_false_iff_not] at hy
  simp only [stepBullet, movedX, movedY]
  rw [if_pos hx, if_pos hb, if_neg]
  intro h
  rcases h with h | h
  · exact hy.1 h
  · exact hy.2 h

/-- A y-only crossing with bounces in reserve reflects off the
horizontal wall. -/
theorem stepBullet_bounceY (cfg : Config) (T : Trig) (b : Bullet)
    (hx : crossX cfg T b = false) (hy : crossY cfg T b = true)
    (hb : 0 < b.bounces) :
    stepBullet cfg T b = some { b with
        x := movedX T b,
        y := max (b.size / 2) (min (cfg.mapHeight - b.size / 2) (movedY T b)),
        angle := -b.angle,
        bounces := b.bounces - 1 } := by
  simp only [crossX, movedX, Bool.or_eq_true, decide_eq_true_eq,
    Bool.or_eq_false_iff, decide_eq_false_iff_not] at hx
  simp only [crossY, movedY, Bool.or_eq_true, decide_eq_true_eq] at hy
  simp only [stepBullet, movedX, movedY]
  rw [if_neg, if_pos hy, if_pos hb]
  intro h
  rcases h with h | h
  · exact hx.1 h
  · exact hx.2 h

/-- A boundary crossing with no bounce in reserve removes the bullet. -/
theorem stepBullet_removed (cfg : Config) (T : Trig) (b : Bullet)
    (hc : crossesAnyAxis cfg T b = true) (hb : b.bounces = 0) :
    stepBullet cfg T b = none := by
  simp only [crossesAnyAxis, Bool.or_eq_true] at hc
  simp only [stepBullet, movedX, movedY]
  rcases hc with hc | hc
  · simp only [crossX, movedX, Bool.or_eq_true, decide_eq_true_eq] at hc
    rw [if_pos hc, if_neg (by omega)]
  · simp only [crossY, movedY, Bool.or_eq_true, decide_eq_true_eq] at hc
    by_cases hx : (b.x + T.tcos b.angle * b.speed < b.size / 2 ∨
        b.x + T.tcos b.angle * b.speed > cfg.mapWidth - b.size / 2)
    · rw [if_pos hx, if_neg (by omega)]
    · rw [if_neg hx, if_pos hc, if_neg (by omega)]

/-- C5: a bullet with bounces = 2 whose path crosses exactly one
boundary axis in each of three successive frames is reflected (angle
mirrored, crossed coordinate clamped into the map, bounce count
decremented) at the first two crossings and removed by the third. -/
theorem C5_two_bounces_then_removed (cfg : Config) (T : Trig) (b : Bullet)
    (hb2 : b.bounces = 2)
    (h1 : crossesOneAxis cfg T b = true)
    (h2 : (stepBullet cfg T b).all (fun c => crossesOneAxis cfg T c) = true)
    (h3 : (stepBullet cfg T b).all
      (fun c => (stepBullet cfg T c).all
        (fun d => crossesAnyAxis cfg T d)) = true) :
    ∃ b1 b2, stepBullet cfg T b = some b1 ∧ b1.bounces = 1 ∧
      BouncedFrom cfg T b b1 ∧
      stepBullet cfg T b1 = some b2 ∧ b2.bounces = 0 ∧
      BouncedFrom cfg T b1 b2 ∧
      stepBullet cfg T b2 = none := by
  have hbpos : 0 < b.bounces := by omega
  have step1 : ∃ b1, stepBullet cfg T b = some b1 ∧ b1.bounces = 1 ∧
      BouncedFrom cfg T b b1 := by
    simp only [crossesOneAxis, Bool.or_eq_true, Bool.and_eq_true,
      Bool.not_eq_true'] at h1
    rcases h1 with ⟨hx, hy⟩ | ⟨hx, hy⟩
    · exact ⟨_, stepBullet_bounceX cfg T b hx hy hbpos, by simp [hb2],
        Or.inl ⟨hx, rfl⟩⟩
    · exact ⟨_, stepBullet_bounceY cfg T b hx hy hbpos, by simp [hb2],
        Or.inr ⟨hy, rfl⟩⟩
  obtain ⟨b1, he1, hb1, hbf1⟩ := step1
  have h1b : crossesOneAxis cfg T b1 = true := by
    rw [he1] at h2
    simpa using h2
  have step2 : ∃ b2, stepBullet cfg T b1 = some b2 ∧ b2.bounces = 0 ∧
      BouncedFrom cfg T b1 b2 := by
    have hbpos1 : 0 < b1.bounces := by omega
    simp only [crossesOneAxis, Bool.or_eq_true, Bool.and_eq_true,
      Bool.not_eq_true'] at h1b
    rcases h1b with ⟨hx, hy⟩ | ⟨hx, hy⟩
    · exact ⟨_, stepBullet_bounceX cfg T b1 hx hy hbpos1, by simp [hb1],
        Or.inl ⟨hx, rfl⟩⟩
    · exact ⟨_, stepBullet_bounceY cfg T b1 hx hy hbpos1, by simp [hb1],
        Or.inr ⟨hy, rfl⟩⟩
  obtain ⟨b2, he2, hb2', hbf2⟩ := step2
  have h2b : crossesAnyAxis cfg T b2 = true := by
    rw [he1] at h3
    simp only [Option.all_some] at h3
    rw [he2] at h3
    simpa using h3
  exact ⟨b1, b2, he1, hb1, hbf1, he2, hb2', hbf2,
    stepBullet_removed cfg T b2 h2b hb2'⟩

/-- The host-math model for the C5 witness: the witness bullet starts at
angle 5/2 heading straight left; the reflected angles 1/2 and -1/2 head
straight up (negative y). -/
def c5Trig : Trig where
  tcos := fun a => if a = 5/2 then -1 else 0
  tsin := fun a => if a = 5/2 then 0 else -1
  atan2 := fun _ _ => 0
  piQ := 3
  sqrt2 := 3/2

/-- A 100 x 100 map for the C5 witness. -/
def c5Config : Config :=
  { gameConfig with mapWidth := 100, mapHeight := 100 }

/-- The C5 witness bullet: two bounces, about to cross the left wall. -/
def c5Bullet : Bullet where
  x := 4
  y := 6
  angle := 5/2
  speed := 6
  size := 4
  ownerId := 0
  color := "#ff4444"
  bounces := 2

/-- C5 witness: the theorem applied to a concrete bullet that crosses
the left wall, then the top wall, then the top wall again. -/
theorem C5_two_bounces_then_removed_witness :
    ∃ b1 b2, stepBullet c5Config c5Trig c5Bullet = some b1 ∧ b1.bounces = 1 ∧
      BouncedFrom c5Config c5Trig c5Bullet b1 ∧
      stepBullet c5Config c5Trig b1 = some b2 ∧ b2.bounces = 0 ∧
      BouncedFrom c5Config c5Trig b1 b2 ∧
      stepBullet c5Config c5Trig b2 = none :=
  C5_two_bounces_then_removed c5Config c5Trig c5Bullet rfl
    (by norm_num [crossesOneAxis, crossX, crossY, movedX, movedY, c5Config,
      c5Trig, c5Bullet, gameConfig])
    (by norm_num [stepBullet, crossesOneAxis, crossX, crossY, movedX, movedY,
      c5Config, c5Trig, c5Bullet, gameConfig])
    (by norm_num [stepBullet, crossesAnyAxis, crossX, crossY, movedX, movedY,
      c5Config, c5Trig, c5Bullet, gameConfig])

/-! ## C7: no friendly fire in TDM -/

/-- A same-team pair is skipped: the pair step leaves the whole state
unchanged (this also covers dead victims and the owner itself, which the
source skips first). -/
theorem btPair_same_team_skip (cfg : Config) (now : ℚ) (st : GameState)
    (b : Bullet) (i j : ℕ) (tank owner : Tank)
    (hmode : st.gameMode = Mode.tdm)
    (hj : st.tanks[j]? = some tank)
    (hown : findTank st.tanks b.ownerId = some owner)
    (hteam : owner.team = tank.team) :
    btPair cfg now b i st j = st := by
  simp only [btPair, hj]
  by_cases h1 : ¬tank.isAlive ∨ tank.id = b.ownerId
  · rw [if_pos h1]
  · rw [if_neg h1, if_pos ⟨hmode, by simp [ownerSameTeam, hown, hteam]⟩]

/-- The bullet-vs-obstacle pass only rewrites the bullet list. -/
theorem boOuter_tanks_stats (T : Trig) :
    ∀ (fuel i : ℕ) (st : GameState),
      (boOuter T fuel i st).tanks = st.tanks ∧
      (boOuter T fuel i st).playerStats = st.playerStats ∧
      (boOuter T fuel i st).powerups = st.powerups
  | 0, _, _ => ⟨rfl, rfl, rfl⟩
  | fuel + 1, i, st => by
      simp only [boOuter]
      cases h : st.bullets[i]? with
      | none => exact ⟨rfl, rfl, rfl⟩
      | some bb => exact boOuter_tanks_stats T fuel (i + 1) (boInner T bb i st)

/-- C7: in TDM, (a) a bullet whose resolved owner is on the victim's
team never changes the state at that victim (no damage, no bullet
consumption, no bookkeeping), and (b) when every bullet's owner id
resolves to a tank and all tanks share one team, the whole
combat-resolution step leaves every tank (health included) unchanged. -/
theorem C7_no_friendly_fire (cfg : Config) (T : Trig) (now : ℚ)
    (st : GameState) (hmode : st.gameMode = Mode.tdm) :
    (∀ (b : Bullet) (i j : ℕ) (tank owner : Tank),
      st.tanks[j]? = some tank →
      findTank st.tanks b.ownerId = some owner →
      owner.team = tank.team →
      btPair cfg now b i st j = st) ∧
    ((∀ b ∈ st.bullets, (findTank st.tanks b.ownerId).isSome = true) →
      (∀ t1 ∈ st.tanks, ∀ t2 ∈ st.tanks, t1.team = t2.team) →
      (checkCollisions cfg T now st).tanks = st.tanks) := by
  constructor
  · intro b i j tank owner hj hown hteam
    exact btPair_same_team_skip cfg now st b i j tank owner hmode hj hown hteam
  · intro hfind hteam
    have pair_id : ∀ (b : Bullet), b ∈ st.bullets → ∀ (i j : ℕ),
        btPair cfg now b i st j = st := by
      intro b hb i j
      cases hj : st.tanks[j]? with
      | none => simp [btPair, hj]
      | some tank =>
          have hsome := hfind b hb
          cases hown : findTank st.tanks b.ownerId with
          | none => rw [hown] at hsome; simp at hsome
          | some owner =>
              have howner_mem : owner ∈ st.tanks :=
                List.mem_of_find?_eq_some hown
              have htank_mem : tank ∈ st.tanks := by
                have := List.getElem?_eq_some.mp hj
                obtain ⟨hlt, hget⟩ := this
                rw [← hget]
                exact List.getElem_mem hlt
              exact btPair_same_team_skip cfg now st b i j tank owner hmode hj
                hown (hteam owner howner_mem tank htank_mem)
    have inner_id : ∀ (b : Bullet), b ∈ st.bullets → ∀ (i : ℕ),
        btInner cfg now b i st = st := by
      intro b hb i
      show (List.range st.tanks.length).foldl (btPair cfg now b i) st = st
      exact foldl_pres (fun s => s = st) (btPair cfg now b i)
        (fun s j hs => by rw [hs]; exact pair_id b hb i j)
        (List.range st.tanks.length) st rfl
    have outer_id : ∀ (fuel i : ℕ), btOuter cfg now fuel i st = st := by
      intro fuel
      induction fuel with
      | zero => intro i; rfl
      | succ k ih =>
          intro i
          cases h : st.bullets[i]? with
          | none => simp [btOuter, h]
          | some bb =>
              have hbb : bb ∈ st.bullets := by
                have := List.getElem?_eq_some.mp h
                obtain ⟨hlt, hget⟩ := this
                rw [← hget]
                exact List.getElem_mem hlt
              simp only [btOuter, h]
              rw [inner_id bb hbb i]
              exact ih (i + 1)
    show (boOuter T _ 0 (btOuter cfg now st.bullets.length 0 st)).tanks = st.tanks
    rw [outer_id st.bullets.length 0]
    exact (boOuter_tanks_stats T _ 0 st).1

/-- A red-team owner tank for the C7 witness. -/
def c7Owner : Tank := { baseTank with team := some Team.red }

/-- A red-team victim for the C7 witness. -/
def c7Victim : Tank :=
  { baseTank with id := 1, name := "Player 2", x := 140, team := some Team.red }

/-- A bullet from the red owner overlapping the red victim. -/
def c7Bullet : Bullet where
  x := 140
  y := 100
  angle := 0
  speed := 6
  size := 4
  ownerId := 0
  color := "#ff4444"
  bounces := 0

/-- The all-red TDM state for the C7 witness. -/
def c7State : GameState :=
  { baseState with
      gameMode := Mode.tdm,
      tanks := [c7Owner, c7Victim],
      bullets := [c7Bullet],
      teamsRed := [0, 1],
      playerStats := [(0, baseStats), (1, { baseStats with name := "Player 2" })] }

/-- C7 witness: the theorem applied at a concrete all-red TDM state. -/
theorem C7_no_friendly_fire_witness :
    btPair gameConfig 999 c7Bullet 0 c7State 1 = c7State ∧
    (checkCollisions gameConfig constTrig 999 c7State).tanks = c7State.tanks := by
  have h := C7_no_friendly_fire gameConfig constTrig 999 c7State rfl
  refine ⟨h.1 c7Bullet 0 1 c7Victim c7Owner rfl rfl rfl, h.2 ?_ ?_⟩
  · decide
  · decide

/-! ## C8: powerup pickup with several overlapping tanks -/

/-- The tank-list effect of one pickup tank check. -/
theorem pickupTank_tanks (cfg : Config) (p : Powerup) (i : ℕ)
    (s : GameState) (j : ℕ) :
    (pickupTank cfg p i s j).tanks
      = match s.tanks[j]? with
        | none => s.tanks
        | some t =>
            if pickCond p t then s.tanks.set j (applyPowerupTank cfg p.ptype t)
            else s.tanks := by
  unfold pickupTank powerupsApply
  cases h : s.tanks[j]? with
  | none => rfl
  | some t =>
      by_cases hc : pickCond p t = true
      · simp [h, hc]
      · simp [h, hc]

/-- One pickup tank check never changes the tank-list length. -/
theorem pickupTank_tanks_length (cfg : Config) (p : Powerup) (i : ℕ)
    (s : GameState) (j : ℕ) :
    (pickupTank cfg p i s j).tanks.length = s.tanks.length := by
  rw [pickupTank_tanks]
  cases h : s.tanks[j]? with
  | none => rfl
  | some t =>
      by_cases hc : pickCond p t = true
      · simp [hc]
      · simp [hc]

/-- One pickup tank check never changes the powerup-list length. -/
theorem pickupTank_powerups_length (cfg : Config) (p : Powerup) (i : ℕ)
    (s : GameState) (j : ℕ) :
    (pickupTank cfg p i s j).powerups.length = s.powerups.length := by
  unfold pickupTank powerupsApply markDead
  cases h : s.tanks[j]? with
  | none => rfl
  | some t =>
      by_cases hc : pickCond p t = true
      · simp only [hc, if_true]
        cases hq : s.powerups[i]? with
        | none => simp
        | some q => simp
      · simp [hc]

/-- Characterisation of one whole pickup tank loop for the captured
powerup p at slot i: each tank index receives the effect exactly when it
is alive and overlapping, independently of the other tanks and of the
powerup's alive flag, which the loop never re-checks. -/
theorem pickupFold_tanks_get (cfg : Config) (p : Powerup) (i : ℕ)
    (st : GameState) :
    ∀ (n j : ℕ),
      (((List.range n).foldl (pickupTank cfg p i) st).tanks)[j]?
        = if j < n
          then (st.tanks[j]?).map
            (fun t => if pickCond p t then applyPowerupTank cfg p.ptype t else t)
          else st.tanks[j]? := by
  have hlen : ∀ (n : ℕ),
      (((List.range n).foldl (pickupTank cfg p i) st).tanks).length
        = st.tanks.length := by
    intro n
    exact foldl_pres (fun s => s.tanks.length = st.tanks.length)
      (pickupTank cfg p i)
      (fun s a hs => by
        show (pickupTank cfg p i s a).tanks.length = st.tanks.length
        rw [pickupTank_tanks_length]
        exact hs)
      (List.range n) st rfl
  intro n
  induction n with
  | zero => intro j; simp
  | succ k ih =>
      intro j
      rw [List.range_succ, List.foldl_append, List.foldl_cons, List.foldl_nil]
      rw [pickupTank_tanks]
      have hk := ih k
      rw [if_neg (lt_irrefl k)] at hk
      rw [hk]
      cases ht : st.tanks[k]? with
      | none =>
          dsimp only
          rw [ih j]
          by_cases hj : j < k
          · rw [if_pos hj, if_pos (by omega)]
          · by_cases hjk : j = k
            · subst hjk
              rw [if_neg hj, if_pos (by omega), ht]
              rfl
            · rw [if_neg hj, if_neg (by omega)]
      | some t =>
          dsimp only
          by_cases hc : pickCond p t = true
          · rw [if_pos hc]
            by_cases hjk : j = k
            · subst hjk
              have hklen : j < st.tanks.length := by
                have := List.getElem?_eq_some.mp ht
                exact this.1
              rw [List.getElem?_set_self (by rw [hlen]; exact hklen)]
              rw [if_pos (by omega), ht]
              simp [hc]
            · rw [List.getElem?_set_ne (by omega)]
              rw [ih j]
              by_cases hj : j < k
              · rw [if_pos hj, if_pos (by omega)]
              · rw [if_neg hj, if_neg (by omega)]
          · rw [if_neg hc]
            rw [ih j]
            by_cases hj : j < k
            · rw [if_pos hj, if_pos (by omega)]
            · by_cases hjk : j = k
              · subst hjk
                rw [if_neg hj, if_pos (by omega), ht]
                simp [hc]
              · rw [if_neg hj, if_neg (by omega)]

/-- C8 (amended): when the pickup loop visits a live powerup p at slot i
(hp, hal), it checks p against every tank; every live overlapping tank
receives the effect (the powerup's alive flag is not re-checked between
tanks, so two overlapping tanks both collect it), dead or non-overlapping
tanks are untouched, and no powerup is spliced during the pass (removal
of the dead powerup happens on a later frame's visit). -/
theorem C8_every_overlapping_tank_collects (cfg : Config) (p : Powerup)
    (i fuel : ℕ) (st : GameState)
    (hp : st.powerups[i]? = some p) (hal : p.alive = true) :
    pickupOuter cfg (fuel + 1) i st
      = pickupOuter cfg fuel (i + 1) (pickupInner cfg p i st) ∧
    (∀ (j : ℕ) (t : Tank), st.tanks[j]? = some t →
      (pickupInner cfg p i st).tanks[j]?
        = some (if pickCond p t then applyPowerupTank cfg p.ptype t else t)) ∧
    (pickupInner cfg p i st).powerups.length = st.powerups.length := by
  refine ⟨?_, ?_, ?_⟩
  · simp [pickupOuter, hp, hal]
  · intro j t hj
    have hjlt : j < st.tanks.length := (List.getElem?_eq_some.mp hj).1
    have := pickupFold_tanks_get cfg p i st st.tanks.length j
    rw [if_pos hjlt, hj] at this
    exact this
  · exact foldl_pres (fun s => s.powerups.length = st.powerups.length)
      (pickupTank cfg p i)
      (fun s a hs => by
        show (pickupTank cfg p i s a).powerups.length = st.powerups.length
        rw [pickupTank_powerups_length]
        exact hs)
      (List.range st.tanks.length) st rfl

/-- The powerup sitting on two tanks for the C8 fixtures. -/
def c8Powerup : Powerup where
  id := 1
  x := 100
  y := 100
  ptype := PowerupType.SPEED
  size := 15
  alive := true
  rotation := 0

/-- The second tank overlapping the powerup. -/
def c8TankB : Tank := { baseTank with id := 1, name := "Player 2" }

/-- Two live tanks on top of one live powerup. -/
def c8State : GameState :=
  { baseState with
      tanks := [baseTank, c8TankB],
      powerups := [c8Powerup],
      playerStats := [(0, baseStats), (1, { baseStats with name := "Player 2" })] }

/-- C8 counterexample: one GamePowerups.update frame in which a single
powerup overlaps two living tanks gives BOTH tanks a SPEED stack entry
and counts one collection for each, refuting that exactly one tank
receives the effect; the marked-dead powerup is still in the collection
after the frame (removal is deferred), refuting in-frame removal. -/
theorem C8_double_pickup_counterexample :
    ((powerupsUpdate gameConfig (fun _ => 0) 0 16 c8State).tanks.map
        (fun t => t.powerups.speed)) = [[15000], [15000]] ∧
    (powerupsUpdate gameConfig (fun _ => 0) 0 16 c8State).powerups
      = [{ c8Powerup with alive := false }] ∧
    ((powerupsUpdate gameConfig (fun _ => 0) 0 16 c8State).playerStats.map
        (fun e => e.2.powerupsCollected)) = [1, 1] := by
  norm_num [powerupsUpdate, tickPhase, tickTank, tickArr, spawnPhase, spawnPowerup,
    pickupOuter, pickupInner, pickupTank, pickCond, powerupsApply, applyPowerupTank,
    markDead, statsUpd, distLt, gameConfig, c8State, baseState, baseTank, c8TankB,
    baseStats, c8Powerup, baseStacks, List.range_succ]

/-- C8 witness: the amended theorem applied at the concrete two-tank
state: both overlapping tanks get the SPEED effect applied. -/
theorem C8_every_overlapping_tank_collects_witness :
    pickupOuter gameConfig (0 + 1) 0 c8State
      = pickupOuter gameConfig 0 (0 + 1) (pickupInner gameConfig c8Powerup 0 c8State) ∧
    (∀ (j : ℕ) (t : Tank), c8State.tanks[j]? = some t →
      (pickupInner gameConfig c8Powerup 0 c8State).tanks[j]?
        = some (if pickCond c8Powerup t
            then applyPowerupTank gameConfig c8Powerup.ptype t else t)) ∧
    (pickupInner gameConfig c8Powerup 0 c8State).powerups.length
      = c8State.powerups.length :=
  C8_every_overlapping_tank_collects gameConfig c8Powerup 0 0 c8State rfl rfl

/-! ## C1: health bounds -/

/-- The reachable-state health invariant: health is an integral rational
in [0, maxHealth], positive while the tank is alive (initial health is
the integer TANK_HEALTH = 30, damage is the integer BULLET_DAMAGE = 1
applied only to living tanks, and heals are integral and capped). -/
def TankHealthInv (t : Tank) : Prop :=
  0 ≤ t.health ∧ t.health ≤ t.maxHealth ∧
  (t.isAlive = true → 1 ≤ t.health) ∧
  (∃ k : ℤ, t.health = (k : ℚ)) ∧
  (∃ m : ℤ, t.maxHealth = (m : ℚ))

/-- Setting one invariant-satisfying tank keeps the list invariant. -/
theorem invList_set {l : List Tank} {j : ℕ} {t' : Tank}
    (hl : ∀ x ∈ l, TankHealthInv x) (ht : TankHealthInv t') :
    ∀ x ∈ l.set j t', TankHealthInv x := fun x hx =>
  (List.mem_or_eq_of_mem_set hx).elim (hl x) (fun he => he ▸ ht)

/-- bumpOwner with an invariant-preserving field update keeps the list
invariant. -/
theorem invList_bumpOwner {l : List Tank} {oid : ℕ} {f : Tank → Tank}
    (hl : ∀ x ∈ l, TankHealthInv x)
    (hf : ∀ t, TankHealthInv t → TankHealthInv (f t)) :
    ∀ x ∈ bumpOwner l oid f, TankHealthInv x := by
  unfold bumpOwner
  cases hidx : l.findIdx? (fun t => decide (t.id = oid)) with
  | none => exact hl
  | some oi =>
      dsimp only
      cases hoi : l[oi]? with
      | none => exact hl
      | some o =>
          dsimp only
          have ho : o ∈ l := by
            obtain ⟨hlt, hget⟩ := List.getElem?_eq_some.mp hoi
            rw [← hget]
            exact List.getElem_mem hlt
          exact invList_set hl (hf o (hl o ho))

/-- Either bumpOwner changes nothing, or it rewrites exactly the first
index whose tank has the owner id. -/
theorem bumpOwner_cases (l : List Tank) (oid : ℕ) (f : Tank → Tank) :
    bumpOwner l oid f = l ∨
    ∃ (oi : ℕ) (o : Tank),
      l.findIdx? (fun t => decide (t.id = oid)) = some oi ∧
      l[oi]? = some o ∧ o.id = oid ∧ bumpOwner l oid f = l.set oi (f o) := by
  unfold bumpOwner
  cases hidx : l.findIdx? (fun t => decide (t.id = oid)) with
  | none => exact Or.inl rfl
  | some oi =>
      dsimp only
      cases hoi : l[oi]? with
      | none => exact Or.inl rfl
      | some o =>
          refine Or.inr ⟨oi, o, rfl, hoi, ?_, rfl⟩
          have := List.findIdx?_of_eq_some hidx
          rw [hoi] at this
          simpa using this

/-- Damage of one BULLET_DAMAGE = 1 to a living invariant tank keeps the
stored health in [0, maxHealth]; the bullet-vs-tank pair step preserves
the list invariant. -/
theorem btPair_inv (cfg : Config) (now : ℚ) (b : Bullet) (i : ℕ)
    (st : GameState) (j : ℕ) (hd : cfg.bulletDamage = 1)
    (h : ∀ x ∈ st.tanks, TankHealthInv x) :
    ∀ x ∈ (btPair cfg now b i st j).tanks, TankHealthInv x := by
  unfold btPair
  cases hj : st.tanks[j]? with
  | none => exact h
  | some tank =>
      dsimp only
      have hjlt : j < st.tanks.length := (List.getElem?_eq_some.mp hj).1
      have htank : tank ∈ st.tanks := by
        obtain ⟨hlt, hget⟩ := List.getElem?_eq_some.mp hj
        rw [← hget]
        exact List.getElem_mem hlt
      obtain ⟨h0, hmax, halive1, ⟨k, hk⟩, ⟨m, hm⟩⟩ := h tank htank
      by_cases h1 : ¬tank.isAlive = true ∨ tank.id = b.ownerId
      · rw [if_pos h1]; exact h
      · rw [if_neg h1]
        obtain ⟨halive', hneq⟩ := not_or.mp h1
        have halive : tank.isAlive = true := by simpa using halive'
        have hge1 : 1 ≤ tank.health := halive1 halive
        have hk1 : (1 : ℤ) ≤ k := by
          have : (1 : ℚ) ≤ (k : ℚ) := by rw [← hk]; exact hge1
          exact_mod_cast this
        by_cases h2 : st.gameMode = Mode.tdm ∧
            ownerSameTeam st.tanks b.ownerId tank.team = true
        · rw [if_pos h2]; exact h
        · rw [if_neg h2]
          by_cases h3 : distLt (b.x - tank.x) (b.y - tank.y)
              (tank.size / 2 + b.size / 2) = true
          · rw [if_pos h3]
            by_cases h4 : 0 < tank.powerups.invincibility.length
            · rw [if_pos h4]; exact h
            · rw [if_neg h4]
              have hfhit : ∀ t : Tank, TankHealthInv t →
                  TankHealthInv { t with shotsHit := t.shotsHit + 1 } :=
                fun t ht => ht
              have hfkill : ∀ t : Tank, TankHealthInv t →
                  TankHealthInv { t with kills := t.kills + 1 } :=
                fun t ht => ht
              by_cases h5 : ({ tank with
                  health := tank.health - cfg.bulletDamage } : Tank).health ≤ 0
              · rw [if_pos h5]
                -- lethal: the victim slot ends up holding the dead record
                have hinv2 : TankHealthInv { tank with
                    health := tank.health - cfg.bulletDamage,
                    isAlive := false, deathTime := now,
                    killedBy := some (match findTank
                      (st.tanks.set j { tank with
                        health := tank.health - cfg.bulletDamage })
                      b.ownerId with
                      | some o => o.name
                      | none => "Unknown") } := by
                  refine ⟨?_, ?_, ?_, ⟨k - 1, ?_⟩, ⟨m, hm⟩⟩
                  · simp only [hd]; linarith
                  · simp only [hd]; linarith
                  · intro hcontra; simp at hcontra
                  · simp only [hd]; rw [hk]; push_cast; ring
                refine invList_bumpOwner ?_ hfkill
                rcases bumpOwner_cases
                    (st.tanks.set j { tank with
                      health := tank.health - cfg.bulletDamage })
                    b.ownerId
                    (fun o => { o with shotsHit := o.shotsHit + 1 }) with
                  hbc | ⟨oi, o, hfi, hoi, hoid, hbc⟩
                · rw [hbc, List.set_set]
                  exact invList_set h hinv2
                · have hoij : oi ≠ j := by
                    intro he
                    subst he
                    rw [List.getElem?_set_self hjlt] at hoi
                    have : ({ tank with
                        health := tank.health - cfg.bulletDamage } : Tank).id
                        = b.ownerId := by rw [← hoid, Option.some.inj hoi]
                    exact hneq this
                  have ho : o ∈ st.tanks := by
                    rw [List.getElem?_set_ne (by omega)] at hoi
                    obtain ⟨hlt, hget⟩ := List.getElem?_eq_some.mp hoi
                    rw [← hget]
                    exact List.getElem_mem hlt
                  rw [hbc, List.set_comm _ _ _ (by omega), List.set_set]
                  exact invList_set (invList_set h hinv2) (hfhit o (h o ho))
              · rw [if_neg h5]
                -- nonlethal: decremented health is a positive integer
                have hinv1 : TankHealthInv { tank with
                    health := tank.health - cfg.bulletDamage } := by
                  simp only [not_le, hd] at h5
                  have hpos : (0 : ℚ) < tank.health - 1 := by
                    simpa using h5
                  have hk2 : (1 : ℤ) ≤ k - 1 := by
                    have : (0 : ℚ) < (k : ℚ) - 1 := by rw [← hk]; exact hpos
                    have h01 : (0 : ℤ) < k - 1 := by exact_mod_cast this
                    omega
                  refine ⟨?_, ?_, ?_, ⟨k - 1, ?_⟩, ⟨m, hm⟩⟩
                  · simp only [hd]; linarith
                  · simp only [hd]; linarith
                  · intro _
                    simp only [hd]
                    have : ((1 : ℤ) : ℚ) ≤ ((k - 1 : ℤ) : ℚ) := by
                      exact_mod_cast hk2
                    push_cast at this
                    rw [hk]
                    linarith
                  · simp only [hd]; rw [hk]; push_cast; ring
                exact invList_bumpOwner (invList_set h hinv1) hfhit
          · rw [if_neg h3]; exact h

/-- The whole bullet-vs-tank pass preserves the list invariant. -/
theorem btOuter_inv (cfg : Config) (now : ℚ) (hd : cfg.bulletDamage = 1) :
    ∀ (fuel i : ℕ) (st : GameState),
      (∀ x ∈ st.tanks, TankHealthInv x) →
      ∀ x ∈ (btOuter cfg now fuel i st).tanks, TankHealthInv x
  | 0, _, _, h => h
  | fuel + 1, i, st, h => by
      cases hb : st.bullets[i]? with
      | none => simpa [btOuter, hb] using h
      | some bb =>
          simp only [btOuter, hb]
          refine btOuter_inv cfg now hd fuel (i + 1) _ ?_
          exact foldl_pres (fun s => ∀ x ∈ s.tanks, TankHealthInv x)
            (btPair cfg now bb i)
            (fun s a hs => btPair_inv cfg now bb i s a hd hs)
            (List.range st.tanks.length) st h

/-- C1: with the shipped constants (BULLET_DAMAGE = 1 and
POWERUP_HEALTH_BOOST = 10), every tank of a state satisfying the health
invariant still has 0 ≤ health ≤ maxHealth after a full checkCollisions
pass, and GamePowerups.apply keeps any invariant tank's health in
[0, maxHealth] for every powerup type (the HEALTH heal is capped at
maxHealth). -/
theorem C1_health_bounds (cfg : Config) (T : Trig) (now : ℚ)
    (st : GameState) (hd : cfg.bulletDamage = 1)
    (hb : cfg.powerupHealthBoost = 10)
    (hinv : ∀ x ∈ st.tanks, TankHealthInv x) :
    (∀ t ∈ (checkCollisions cfg T now st).tanks,
      0 ≤ t.health ∧ t.health ≤ t.maxHealth) ∧
    (∀ (ty : PowerupType) (t : Tank), TankHealthInv t →
      TankHealthInv (applyPowerupTank cfg ty t) ∧
      0 ≤ (applyPowerupTank cfg ty t).health ∧
      (applyPowerupTank cfg ty t).health ≤ (applyPowerupTank cfg ty t).maxHealth) := by
  constructor
  · intro t ht
    have h1 : ∀ x ∈ (btOuter cfg now st.bullets.length 0 st).tanks,
        TankHealthInv x := btOuter_inv cfg now hd st.bullets.length 0 st hinv
    have h2 : (checkCollisions cfg T now st).tanks
        = (btOuter cfg now st.bullets.length 0 st).tanks := by
      unfold checkCollisions
      exact (boOuter_tanks_stats T _ 0 _).1
    rw [h2] at ht
    obtain ⟨ha, hbnd, _, _, _⟩ := h1 t ht
    exact ⟨ha, hbnd⟩
  · intro ty t ht
    obtain ⟨h0, hmax, halive1, ⟨k, hk⟩, ⟨m, hm⟩⟩ := ht
    have key : TankHealthInv (applyPowerupTank cfg ty t) := by
      cases ty with
      | HEALTH =>
          refine ⟨?_, ?_, ?_, ⟨min m (k + 10), ?_⟩, ⟨m, hm⟩⟩
          · simp only [applyPowerupTank, hb]
            have : (0 : ℚ) ≤ t.health + 10 := by linarith
            exact le_min (by linarith) this
          · simp only [applyPowerupTank, hb]
            exact min_le_left _ _
          · intro hal
            simp only [applyPowerupTank, hb]
            have h1 := halive1 hal
            exact le_min (by linarith) (by linarith)
          · simp only [applyPowerupTank, hb, hk, hm]
            push_cast
            rfl
      | INVINCIBILITY => exact ⟨h0, hmax, halive1, ⟨k, hk⟩, ⟨m, hm⟩⟩
      | SPEED => exact ⟨h0, hmax, halive1, ⟨k, hk⟩, ⟨m, hm⟩⟩
      | RAPID_FIRE => exact ⟨h0, hmax, halive1, ⟨k, hk⟩, ⟨m, hm⟩⟩
      | SPREAD_SHOT => exact ⟨h0, hmax, halive1, ⟨k, hk⟩, ⟨m, hm⟩⟩
      | BOUNCING_BULLETS => exact ⟨h0, hmax, halive1, ⟨k, hk⟩, ⟨m, hm⟩⟩
    exact ⟨key, key.1, key.2.1⟩

/-- C1 witness: the theorem applied at a concrete one-tank state with a
live bullet overlapping it. -/
theorem C1_health_bounds_witness :
    (∀ t ∈ (checkCollisions gameConfig constTrig 999
        { baseState with tanks := [baseTank], bullets := [c6Bullet] }).tanks,
      0 ≤ t.health ∧ t.health ≤ t.maxHealth) ∧
    (∀ (ty : PowerupType) (t : Tank), TankHealthInv t →
      TankHealthInv (applyPowerupTank gameConfig ty t) ∧
      0 ≤ (applyPowerupTank gameConfig ty t).health ∧
      (applyPowerupTank gameConfig ty t).health
        ≤ (applyPowerupTank gameConfig ty t).maxHealth) :=
  C1_health_bounds gameConfig constTrig 999
    { baseState with tanks := [baseTank], bullets := [c6Bullet] } rfl rfl
    (by
      intro x hx
      have hxx : x = baseTank := by simpa using hx
      subst hxx
      refine ⟨by norm_num [baseTank], by norm_num [baseTank],
        fun _ => by norm_num [baseTank], ⟨30, by norm_num [baseTank]⟩,
        ⟨30, by norm_num [baseTank]⟩⟩)

/-! ## C10: shotsFired vs shotsHit bookkeeping and accuracy over 100% -/

/-- The ffa/tdm constructor disequality as a rewrite, to let simp sets
collapse the TDM friendly-fire guard in concrete FFA states. -/
theorem ffa_ne_tdm : (Mode.ffa = Mode.tdm) = False := by simp

/-- The C10 shooter: one SPREAD_SHOT stack. -/
def c10Shooter : Tank :=
  { baseTank with powerups := { baseStacks with spreadShot := [15000] } }

/-- The C10 victim, placed at the common spawn point of the three
bullets under the constTrig host-math model. -/
def c10Victim : Tank := { baseTank with id := 1, name := "Player 2", x := 140 }

/-- The C10 two-tank FFA state. -/
def c10State : GameState :=
  { baseState with
      tanks := [c10Shooter, c10Victim],
      playerStats := [(0, baseStats), (1, { baseStats with name := "Player 2" })] }

/-- The state after firing once and resolving combat. -/
def c10After : GameState :=
  checkCollisions gameConfig constTrig 999
    (shootBullet gameConfig constTrig c10State 0)

/-- C10: one shootBullet call increments the shooter's shotsFired by
exactly 1 while appending 3 ^ n bullets, and each bullet hit increments
shotsHit by 1; concretely, firing one spread shot whose three bullets
overlap the victim lands two of them in one checkCollisions pass (the
splice skips the middle bullet), leaving shotsFired = 1, shotsHit = 2
and a reported accuracy of 200% > 100%. -/
theorem C10_accuracy_over_100 (cfg : Config) (T : Trig) (st : GameState)
    (j : ℕ) (t : Tank) (hj : st.tanks[j]? = some t) :
    ((shootBullet cfg T st j).tanks
        = st.tanks.set j { t with shotsFired := t.shotsFired + 1 } ∧
      (shootBullet cfg T st j).bullets.length
        = st.bullets.length + 3 ^ t.powerups.spreadShot.length) ∧
    ((statsGet c10After.playerStats 0).map
        (fun s => (s.shotsFired, s.shotsHit)) = some (1, 2) ∧
      (statsGet c10After.playerStats 0).map accuracyPercent = some 200 ∧
      c10After.tanks.map Tank.health = [30, 28] ∧
      c10After.bullets.length = 1) := by
  constructor
  · constructor
    · simp [shootBullet, hj]
    · simp [shootBullet, hj, spreadBullets_length]
  · norm_num [c10After, c10State, c10Shooter, c10Victim, checkCollisions,
      shootBullet, spreadBullets, mkBullet, btOuter, btInner, btPair, boOuter,
      boInner, boPair, bumpOwner, findTank, ownerSameTeam, distLt, statsUpd,
      statsGet, accuracyPercent, gameConfig, constTrig, baseState, baseTank,
      baseStats, baseStacks, ffa_ne_tdm, List.range_succ,
      List.getElem?_cons_zero, List.getElem?_cons_succ, List.getElem?_nil,
      List.find?, List.findIdx?, List.range_zero, List.foldl_append,
      List.foldl_cons, List.foldl_nil]

/-- C10 witness: the theorem applied at the concrete two-tank state. -/
theorem C10_accuracy_over_100_witness :
    ((shootBullet gameConfig constTrig c10State 0).tanks
        = c10State.tanks.set 0
            { c10Shooter with shotsFired := c10Shooter.shotsFired + 1 } ∧
      (shootBullet gameConfig constTrig c10State 0).bullets.length
        = c10State.bullets.length
            + 3 ^ c10Shooter.powerups.spreadShot.length) ∧
    ((statsGet c10After.playerStats 0).map
        (fun s => (s.shotsFired, s.shotsHit)) = some (1, 2) ∧
      (statsGet c10After.playerStats 0).map accuracyPercent = some 200 ∧
      c10After.tanks.map Tank.health = [30, 28] ∧
      c10After.bullets.length = 1) :=
  C10_accuracy_over_100 gameConfig constTrig c10State 0 c10Shooter rfl

/-! ## C3 witness fixtures -/

/-- A tank with two SPREAD_SHOT stacks (9-bullet fan). -/
def c3Tank : Tank :=
  { baseTank with powerups := { baseStacks with spreadShot := [15000, 15000] } }

/-- One-tank state for the C3 witness. -/
def c3State : GameState :=
  { baseState with tanks := [c3Tank], playerStats := [(0, baseStats)] }

/-- C3 witness: the theorem applied to a tank with stack count 2. -/
theorem C3_spread_fan_witness :
    (shootBullet gameConfig constTrig c3State 0).bullets
      = c3State.bullets ++ spreadBullets gameConfig constTrig c3Tank ∧
    (spreadBullets gameConfig constTrig c3Tank).length
      = 3 ^ c3Tank.powerups.spreadShot.length ∧
    (∀ i a b, (spreadBullets gameConfig constTrig c3Tank)[i]? = some a →
      (spreadBullets gameConfig constTrig c3Tank)[
        (spreadBullets gameConfig constTrig c3Tank).length - 1 - i]? = some b →
      a.angle + b.angle = 2 * c3Tank.turretAngle) ∧
    (∀ i a b, (spreadBullets gameConfig constTrig c3Tank)[i]? = some a →
      (spreadBullets gameConfig constTrig c3Tank)[i + 1]? = some b →
      b.angle - a.angle = gameConfig.powerupSpreadAngle) :=
  C3_spread_fan gameConfig constTrig c3State 0 c3Tank rfl

/-! ## C9: frame phase order and cross-phase writes -/

/-- The bullet-vs-tank pair step never touches the powerup collection. -/
theorem btPair_powerups (cfg : Config) (now : ℚ) (b : Bullet) (i : ℕ)
    (st : GameState) (j : ℕ) :
    (btPair cfg now b i st j).powerups = st.powerups := by
  unfold btPair
  dsimp only
  repeat' split
  all_goals rfl

/-- The whole bullet-vs-tank pass never touches the powerup collection. -/
theorem btOuter_powerups (cfg : Config) (now : ℚ) :
    ∀ (fuel i : ℕ) (st : GameState),
      (btOuter cfg now fuel i st).powerups = st.powerups
  | 0, _, _ => rfl
  | fuel + 1, i, st => by
      cases hb : st.bullets[i]? with
      | none => simp [btOuter, hb]
      | some bb =>
          simp only [btOuter, hb]
          rw [btOuter_powerups cfg now fuel (i + 1)]
          exact foldl_pres (fun s => s.powerups = st.powerups)
            (btPair cfg now bb i)
            (fun s a hs => by
              show (btPair cfg now bb i s a).powerups = st.powerups
              rw [btPair_powerups]; exact hs)
            (List.range st.tanks.length) st rfl

/-- One pickup tank check never touches the bullet collection. -/
theorem pickupTank_bullets (cfg : Config) (p : Powerup) (i : ℕ)
    (s : GameState) (j : ℕ) :
    (pickupTank cfg p i s j).bullets = s.bullets := by
  unfold pickupTank powerupsApply markDead
  dsimp only
  repeat' split
  all_goals rfl

/-- The pickup loop never touches the bullet collection. -/
theorem pickupOuter_bullets (cfg : Config) :
    ∀ (fuel i : ℕ) (st : GameState),
      (pickupOuter cfg fuel i st).bullets = st.bullets
  | 0, _, _ => rfl
  | fuel + 1, i, st => by
      cases hp : st.powerups[i]? with
      | none => simp [pickupOuter, hp]
      | some p =>
          by_cases hal : p.alive = true
          · simp only [pickupOuter, hp, hal, not_true, if_false]
            rw [pickupOuter_bullets cfg fuel (i + 1)]
            exact foldl_pres (fun s => s.bullets = st.bullets)
              (pickupTank cfg p i)
              (fun s a hs => by
                show (pickupTank cfg p i s a).bullets = st.bullets
                rw [pickupTank_bullets]; exact hs)
              (List.range st.tanks.length) st rfl
          · have hal' : p.alive = false := by
              rcases Bool.eq_false_or_eq_true p.alive with hf | ht
              · exact absurd hf hal
              · exact ht
            simp only [pickupOuter, hp, hal', Bool.not_false, if_true]
            exact pickupOuter_bullets cfg fuel (i + 1) _

/-- The spawn-timer block never touches the bullet collection. -/
theorem spawnPhase_bullets (cfg : Config) (rng : ℕ → ℚ) (now dt : ℚ)
    (st : GameState) :
    (spawnPhase cfg rng now dt st).bullets = st.bullets := by
  unfold spawnPhase spawnPowerup
  dsimp only
  repeat' split
  all_goals rfl

/-- The full powerup phase never touches the bullet collection. -/
theorem powerupsUpdate_bullets (cfg : Config) (rng : ℕ → ℚ) (now dt : ℚ)
    (st : GameState) :
    (powerupsUpdate cfg rng now dt st).bullets = st.bullets := by
  unfold powerupsUpdate
  rw [pickupOuter_bullets, spawnPhase_bullets]
  rfl

/-- The win-condition check only touches gameState and gameEndTime. -/
theorem checkGameEnd_frame (now : ℚ) (st : GameState) :
    (checkGameEnd now st).tanks = st.tanks ∧
    (checkGameEnd now st).bullets = st.bullets ∧
    (checkGameEnd now st).powerups = st.powerups := by
  unfold checkGameEnd endGame
  dsimp only
  repeat' split
  all_goals exact ⟨rfl, rfl, rfl⟩

/-- Firing writes bullets, the shooter record and the shot statistic
only: the powerup collection is untouched. -/
theorem shootBullet_powerups (cfg : Config) (T : Trig) (st : GameState)
    (j : ℕ) : (shootBullet cfg T st j).powerups = st.powerups := by
  unfold shootBullet
  repeat' split
  all_goals rfl

/-- Firing never touches the obstacle collection. -/
theorem shootBullet_obstacles (cfg : Config) (T : Trig) (st : GameState)
    (j : ℕ) : (shootBullet cfg T st j).obstacles = st.obstacles := by
  unfold shootBullet
  repeat' split
  all_goals rfl

set_option maxHeartbeats 1600000 in
/-- The player update writes only tank fields, bullets and statistics:
the powerup collection is untouched. -/
theorem updatePlayerTank_powerups (cfg : Config) (T : Trig) (now : ℚ)
    (st : GameState) (j : ℕ) :
    (updatePlayerTank cfg T now st j).powerups = st.powerups := by
  unfold updatePlayerTank
  split
  · rfl
  · lift_lets
    intros
    repeat' split
    all_goals first
      | rfl
      | exact shootBullet_powerups cfg T _ j

set_option maxHeartbeats 1600000 in
/-- The player update never touches the obstacle collection. -/
theorem updatePlayerTank_obstacles (cfg : Config) (T : Trig) (now : ℚ)
    (st : GameState) (j : ℕ) :
    (updatePlayerTank cfg T now st j).obstacles = st.obstacles := by
  unfold updatePlayerTank
  split
  · rfl
  · lift_lets
    intros
    repeat' split
    all_goals first
      | rfl
      | exact shootBullet_obstacles cfg T _ j

/-- One updateTanks iteration leaves the powerup and obstacle
collections alone, provided the AI collaborator does. -/
theorem updateTanksStep_frame (ai : AIStep) (cfg : Config) (T : Trig)
    (now dt : ℚ)
    (hai : ∀ (s : GameState) (k : ℕ) (d : ℚ),
      (ai s k d).powerups = s.powerups ∧ (ai s k d).obstacles = s.obstacles)
    (s : GameState) (j : ℕ) :
    (updateTanksStep ai cfg T now dt s j).powerups = s.powerups ∧
    (updateTanksStep ai cfg T now dt s j).obstacles = s.obstacles := by
  constructor
  · unfold updateTanksStep
    dsimp only
    repeat' split
    all_goals
      first
        | rfl
        | exact (hai _ j dt).1
        | exact updatePlayerTank_powerups cfg T now _ j
  · unfold updateTanksStep
    dsimp only
    repeat' split
    all_goals
      first
        | rfl
        | exact (hai _ j dt).2
        | exact updatePlayerTank_obstacles cfg T now _ j

/-- C9 counterexample state: one live human tank holding the shoot
control with an elapsed cooldown. -/
def c9State : GameState :=
  { baseState with
      tanks := [baseTank],
      playerStats := [(0, baseStats)],
      activeControls := [(0, Control.D)] }

/-- The trivial AI step for states without AI tanks. -/
def aiNop : AIStep := fun st _ _ => st

/-- Control-note disequalities, spelled out for rewriting: the generic
simp set does not reduce these constructor comparisons. -/
theorem ctrl_ne_D :
    ((Control.A = Control.D) = False) ∧
    ((Control.A_SHARP = Control.D) = False) ∧
    ((Control.B = Control.D) = False) ∧
    ((Control.C = Control.D) = False) ∧
    ((Control.C_SHARP = Control.D) = False) ∧
    ((Control.D_SHARP = Control.D) = False) ∧
    ((Control.D = Control.A) = False) ∧
    ((Control.D = Control.A_SHARP) = False) ∧
    ((Control.D = Control.B) = False) ∧
    ((Control.D = Control.C) = False) ∧
    ((Control.D = Control.C_SHARP) = False) ∧
    ((Control.D = Control.D_SHARP) = False) := by
  refine ⟨?_, ?_, ?_, ?_, ?_, ?_, ?_, ?_, ?_, ?_, ?_, ?_⟩ <;> simp

/-- C9 counterexample: the tank-movement phase itself writes the bullet
collection (the shot is fired inside updateTanks, before the bullet
phase runs), refuting that no earlier phase writes a later phase's
state. -/
theorem C9_movement_writes_bullets :
    (updateTanks aiNop gameConfig constTrig 999 16 c9State).bullets.length = 1 ∧
    c9State.bullets = [] := by
  constructor
  · norm_num [updateTanks, updateTanksStep, updatePlayerTank, shootBullet,
      spreadBullets, mkBullet, hasControl, moveTankWithSliding,
      checkTankObstacleCollision, constrainTankToMap, aiNop, c9State,
      baseState, baseTank, baseStats, baseStacks, gameConfig, constTrig,
      List.range_succ, List.range_zero, List.foldl_append, List.foldl_cons,
      List.foldl_nil, List.contains_cons, List.contains_nil,
      Prod.mk.injEq, beq_iff_eq, ctrl_ne_D.1, ctrl_ne_D.2.1,
      ctrl_ne_D.2.2.1, ctrl_ne_D.2.2.2.1, ctrl_ne_D.2.2.2.2.1,
      ctrl_ne_D.2.2.2.2.2.1, ctrl_ne_D.2.2.2.2.2.2.1,
      ctrl_ne_D.2.2.2.2.2.2.2.1, ctrl_ne_D.2.2.2.2.2.2.2.2.1,
      ctrl_ne_D.2.2.2.2.2.2.2.2.2.1, ctrl_ne_D.2.2.2.2.2.2.2.2.2.2.1,
      ctrl_ne_D.2.2.2.2.2.2.2.2.2.2.2]
  · rfl

/-- C9 (amended): when unpaused, one frame runs tank movement, bullet
advancement, powerup tick/spawn/pickup, combat resolution, the (empty)
AI hook and win-condition evaluation in that fixed order, and a paused
frame changes nothing.  The later phases respect the phase boundaries:
bullet advancement leaves tanks, powerups and stats alone, the powerup
phase leaves bullets alone, combat leaves powerups alone, and the
win-check leaves all collections alone; tank movement leaves the powerup
and obstacle collections alone (whenever the opaque AI collaborator
does) but DOES write the bullet collection when a tank fires, which is
the one exception to the no-earlier-phase-writes rule. -/
theorem C9_phase_order (ai : AIStep) (cfg : Config) (T : Trig)
    (rng : ℕ → ℚ) (now dt : ℚ) (st : GameState) :
    (st.isPaused = true → update ai cfg T rng now dt st = st) ∧
    (st.isPaused = false →
      update ai cfg T rng now dt st
        = checkGameEnd now (updateAIPhase dt (checkCollisions cfg T now
            (powerupsUpdate cfg rng now dt (updateBullets cfg T
              (updateTanks ai cfg T now dt st)))))) ∧
    (updateBullets cfg T st).tanks = st.tanks ∧
    (updateBullets cfg T st).powerups = st.powerups ∧
    (updateBullets cfg T st).playerStats = st.playerStats ∧
    (powerupsUpdate cfg rng now dt st).bullets = st.bullets ∧
    (checkCollisions cfg T now st).powerups = st.powerups ∧
    (checkGameEnd now st).tanks = st.tanks ∧
    (checkGameEnd now st).bullets = st.bullets ∧
    (checkGameEnd now st).powerups = st.powerups ∧
    ((∀ (s : GameState) (k : ℕ) (d : ℚ),
        (ai s k d).powerups = s.powerups ∧ (ai s k d).obstacles = s.obstacles) →
      (updateTanks ai cfg T now dt st).powerups = st.powerups ∧
      (updateTanks ai cfg T now dt st).obstacles = st.obstacles) := by
  refine ⟨fun h => by simp [update, h], fun h => by simp [update, h],
    rfl, rfl, rfl, powerupsUpdate_bullets cfg rng now dt st, ?_,
    (checkGameEnd_frame now st).1, (checkGameEnd_frame now st).2.1,
    (checkGameEnd_frame now st).2.2, ?_⟩
  · unfold checkCollisions
    rw [(boOuter_tanks_stats T _ 0 _).2.2, btOuter_powerups]
  · intro hai
    exact foldl_pres
      (fun s => s.powerups = st.powerups ∧ s.obstacles = st.obstacles)
      (updateTanksStep ai cfg T now dt)
      (fun s j hs => by
        obtain ⟨h1, h2⟩ := updateTanksStep_frame ai cfg T now dt hai s j
        exact ⟨by rw [h1]; exact hs.1, by rw [h2]; exact hs.2⟩)
      (List.range st.tanks.length) st ⟨rfl, rfl⟩

/-- C9 witness: the theorem applied to a concrete paused state (frame is
a no-op), to the unpaused counterpart (the phase pipeline in source
order), and to its AI-free tank list (movement leaves powerups alone). -/
theorem C9_phase_order_witness :
    (update aiNop gameConfig constTrig (fun _ => 0) 999 16
        { c9State with isPaused := true } = { c9State with isPaused := true }) ∧
    (update aiNop gameConfig constTrig (fun _ => 0) 999 16 c9State
      = checkGameEnd 999 (updateAIPhase 16 (checkCollisions gameConfig constTrig 999
          (powerupsUpdate gameConfig (fun _ => 0) 999 16 (updateBullets gameConfig constTrig
            (updateTanks aiNop gameConfig constTrig 999 16 c9State)))))) ∧
    (updateTanks aiNop gameConfig constTrig 999 16 c9State).powerups
      = c9State.powerups := by
  have h1 := C9_phase_order aiNop gameConfig constTrig (fun _ => 0) 999 16
    { c9State with isPaused := true }
  have h2 := C9_phase_order aiNop gameConfig constTrig (fun _ => 0) 999 16 c9State
  obtain ⟨hp, hc, _, _, _, _, _, _, _, _, hfree⟩ := h2
  exact ⟨h1.1 rfl, hc rfl, (hfree (fun s k d => ⟨rfl, rfl⟩)).1⟩

end MultiTanks
